import Mathlib

/-!
Shallow embedding of the drr2 backend's notification-channel integration layer
(`src/backend/app`): the per-platform integration stores
(`services/slack.py`, `services/telegram.py`, `services/discord.py`), the
router handlers for OAuth callbacks, signed-link verification, test messages,
deletion and channel discovery (`routers/slack.py`, `routers/discord.py`,
`routers/telegram.py`), and the inbound signature verifiers.

Conventions of the embedding:
- A database table is a `List` of row structures; list order is insertion
  order, which equals creation order (`created_at` ascending), so an
  `ORDER BY created_at DESC` read is a read of the reversed list.
- SQLAlchemy's identity map mutates loaded entities in place and `commit`
  persists the mutation; this is embedded as replacing, by primary key, the
  row in the list.  `scalar_one_or_none` over a primary-key or
  invariant-unique filter is embedded as `head?` of the filtered list.
- Python truthiness on `Optional[str]` / `Optional[int]` values (`if x:`) is
  embedded explicitly (`pyTruthyStr`, `pyTruthyInt`): `None`, `""` and `0`
  are falsy.
- Outbound platform HTTP calls are parameters of the handler functions: the
  caller supplies the call's outcome (`Except` for calls that may raise the
  platform error type).  Cryptographic primitives (HMAC-SHA256, Ed25519) are
  parameters as well, so theorems about the verifiers quantify over every
  possible digest, capturing "even with a byte-perfect signature".
-/

/-- Python truthiness of an `Optional[str]`: `None` and `""` are falsy. -/
def pyTruthyStr : Option String → Bool
  | none => false
  | some s => s ≠ ""

/-- Python truthiness of an optional integer: `None` and `0` are falsy. -/
def pyTruthyInt : Option Int → Bool
  | none => false
  | some n => n ≠ 0

/-- Python truthiness of an optional natural number (used for JSON integers
that the code feeds to `int(...)`). -/
def pyTruthyNat : Option Nat → Bool
  | none => false
  | some n => n ≠ 0

/-- Python `a or b` on optional strings: `a` when truthy, else `b`. -/
def pyOrStr (a b : Option String) : Option String :=
  if pyTruthyStr a then a else b

/-- Python `str.split(sep)` for a one-character separator: always returns a
non-empty list; a string without the separator yields the whole string as the
single element. -/
def pySplitChar (sep : Char) : List Char → List (List Char)
  | [] => [[]]
  | c :: cs =>
    if c = sep then [] :: pySplitChar sep cs
    else
      match pySplitChar sep cs with
      | [] => [[c]]
      | g :: gs => (c :: g) :: gs

/-- Decimal digit accumulator for `pyParseInt`: `none` unless every
character is a digit (and the list is non-empty). -/
def digitsToNat (l : List Char) : Option Nat :=
  if l = [] then none
  else
    l.foldl (fun acc c =>
      match acc with
      | none => none
      | some n => if c.isDigit then some (n * 10 + (c.toNat - '0'.toNat)) else none)
      (some 0)

/-- Python `int(s)` on a decimal string with an optional sign; `none` embeds
the `ValueError` the callers catch. -/
def pyParseInt (s : String) : Option Int :=
  match s.data with
  | [] => none
  | '-' :: rest => (digitsToNat rest).map (fun n => -(n : Int))
  | '+' :: rest => (digitsToNat rest).map (fun n => (n : Int))
  | l => (digitsToNat l).map (fun n => (n : Int))

/-- Replace, by key, every row whose key equals `k` with `e'`; rows are keyed
by a primary key, so at most one row is affected in well-formed states.  This
embeds SQLAlchemy's mutate-loaded-entity-then-commit pattern. -/
def replaceByKey {α : Type} (key : α → Nat) (db : List α) (k : Nat) (e' : α) : List α :=
  db.map (fun r => if key r == k then e' else r)

/-- Surrogate-key allocation for an autoincrement primary key: one more than
the largest key present. -/
def nextKey {α : Type} (key : α → Nat) (db : List α) : Nat :=
  (db.map key).foldr max 0 + 1

/-! ### Data model: one row structure per platform (`app/models/`) -/

/-- Status enum of `app/models/slack.py` (`SlackStatus`). -/
inductive SlackStatus where
  | DISABLED | ENABLED | ACTIVE
deriving DecidableEq, Repr

/-- Status enum of `app/models/telegram.py` (`TelegramStatus`). -/
inductive TelegramStatus where
  | DISABLED | ENABLED | ACTIVE
deriving DecidableEq, Repr

/-- Chat-type enum of `app/models/telegram.py` (`TelegramChatType`). -/
inductive TelegramChatType where
  | PRIVATE | GROUP | SUPERGROUP | CHANNEL
deriving DecidableEq, Repr

/-- Status enum of `app/models/discord.py` (`DiscordStatus`). -/
inductive DiscordStatus where
  | DISABLED | ENABLED | ACTIVE
deriving DecidableEq, Repr

/-- Row of the `slack` table (`app/models/slack.py`).  `deleted_at` is the
soft-delete timestamp; audit timestamps are not modelled (creation order is
the list order). -/
structure SlackRow where
  id : Nat
  user_id : String
  workspace_id : String
  workspace_name : Option String
  bot_token : String
  bot_user_id : Option String
  slack_user_id : Option String
  user_token : Option String
  channel_id : String
  channel_name : Option String
  status : SlackStatus
  deleted_at : Option Nat
deriving DecidableEq, Repr

/-- Row of the `telegram` table (`app/models/telegram.py`).  `channel_id` is a
Telegram chat id (a possibly negative 64-bit integer). -/
structure TelegramRow where
  id : Nat
  user_id : String
  telegram_user_id : Option Int
  channel_id : Int
  chat_type : TelegramChatType
  chat_title : Option String
  username : Option String
  first_name : Option String
  last_name : Option String
  language_code : Option String
  status : TelegramStatus
  deleted_at : Option Nat
deriving DecidableEq, Repr

/-- Row of the `discord` table (`app/models/discord.py`).  `guild_id` and
`channel_id` are nullable (NULL for the DM row's guild). -/
structure DiscordRow where
  id : Nat
  user_id : String
  discord_user_id : String
  guild_id : Option String
  guild_name : Option String
  channel_id : Option String
  channel_name : Option String
  username : Option String
  global_name : Option String
  owned_guild_ids : Option String
  status : DiscordStatus
  deleted_at : Option Nat
deriving DecidableEq, Repr

/-! ### Integration store: Slack (`app/services/slack.py`) -/

namespace SlackService

/-- The natural-key filter of `get_by_user_workspace_channel`. -/
def tupleMatch (user_id workspace_id channel_id : String) (r : SlackRow) : Bool :=
  r.user_id == user_id && r.workspace_id == workspace_id && r.channel_id == channel_id

/-- Embeds `SlackService.get_by_user_workspace_channel`: the row for a
(user, workspace, channel) tuple, optionally including soft-deleted rows. -/
def get_by_user_workspace_channel (db : List SlackRow) (user_id workspace_id channel_id : String)
    (include_deleted : Bool) : Option SlackRow :=
  (db.filter (fun r =>
    tupleMatch user_id workspace_id channel_id r &&
    (include_deleted || r.deleted_at.isNone))).head?

/-- Embeds `SlackService.get_by_id`: lookup by primary key among
non-soft-deleted rows. -/
def get_by_id (db : List SlackRow) (integration_id : Nat) : Option SlackRow :=
  (db.filter (fun r => r.id == integration_id && r.deleted_at.isNone)).head?

/-- Embeds `SlackService.get_by_user`: the user's non-deleted rows, most
recently created first. -/
def get_by_user (db : List SlackRow) (user_id : String) : List SlackRow :=
  (db.filter (fun r => r.user_id == user_id && r.deleted_at.isNone)).reverse

/-- Embeds `SlackService.get_dm_integration`: the most recent non-deleted row
whose channel id equals its own Slack user id (the DM convention), optionally
restricted to a workspace. -/
def get_dm_integration (db : List SlackRow) (user_id : String) (workspace_id : Option String) :
    Option SlackRow :=
  ((db.filter (fun r =>
    r.user_id == user_id && some r.channel_id == r.slack_user_id && r.deleted_at.isNone &&
    (match workspace_id with
     | some w => if w ≠ "" then r.workspace_id == w else true
     | none => true))).reverse).head?

/-- Embeds `SlackService.create_slack_integration`: find-and-reactivate the
row for the (user, workspace, channel) tuple, soft-deleted rows included;
otherwise insert a fresh row.  Returns the persisted row and the new table
state.  `access_token` becomes `bot_token`; `user_token` is only overwritten
when truthy, mirroring `if user_token:` in the source. -/
def create_slack_integration (db : List SlackRow)
    (user_id workspace_id : String) (workspace_name : Option String)
    (access_token : String) (bot_user_id slack_user_id user_token : Option String)
    (channel_id : String) (channel_name : Option String) (status : SlackStatus) :
    SlackRow × List SlackRow :=
  match get_by_user_workspace_channel db user_id workspace_id channel_id true with
  | some existing =>
    let updated : SlackRow :=
      { existing with
        workspace_name := workspace_name
        bot_token := access_token
        bot_user_id := bot_user_id
        slack_user_id := slack_user_id
        user_token := if pyTruthyStr user_token then user_token else existing.user_token
        channel_name := channel_name
        status := status
        deleted_at := none }
    (updated, replaceByKey SlackRow.id db existing.id updated)
  | none =>
    let row : SlackRow :=
      { id := nextKey SlackRow.id db
        user_id := user_id
        workspace_id := workspace_id
        workspace_name := workspace_name
        bot_token := access_token
        bot_user_id := bot_user_id
        slack_user_id := slack_user_id
        user_token := user_token
        channel_id := channel_id
        channel_name := channel_name
        status := status
        deleted_at := none }
    (row, db ++ [row])

/-- Embeds `SlackService.update_status`: load the non-deleted row by id,
set its status, commit; `none` when no non-deleted row has that id. -/
def update_status (db : List SlackRow) (integration_id : Nat) (status : SlackStatus) :
    Option SlackRow × List SlackRow :=
  match get_by_id db integration_id with
  | none => (none, db)
  | some entity =>
    let updated := { entity with status := status }
    (some updated, replaceByKey SlackRow.id db entity.id updated)

/-- Embeds `SlackService.delete`: soft-delete the non-deleted row by id,
stamping `deleted_at` and forcing status to DISABLED. -/
def delete (db : List SlackRow) (integration_id : Nat) (now : Nat) :
    Bool × List SlackRow :=
  match get_by_id db integration_id with
  | none => (false, db)
  | some entity =>
    let updated := { entity with deleted_at := some now, status := SlackStatus.DISABLED }
    (true, replaceByKey SlackRow.id db entity.id updated)

end SlackService

/-! ### Integration store: Telegram (`app/services/telegram.py`) -/

namespace TelegramService

/-- The natural-key filter of `get_by_user_and_chat`. -/
def tupleMatch (user_id : String) (channel_id : Int) (r : TelegramRow) : Bool :=
  r.user_id == user_id && r.channel_id == channel_id

/-- Embeds `TelegramService.get_by_user_and_chat`. -/
def get_by_user_and_chat (db : List TelegramRow) (user_id : String) (channel_id : Int)
    (include_deleted : Bool) : Option TelegramRow :=
  (db.filter (fun r =>
    tupleMatch user_id channel_id r && (include_deleted || r.deleted_at.isNone))).head?

/-- Embeds `TelegramService.get_by_id`. -/
def get_by_id (db : List TelegramRow) (integration_id : Nat) : Option TelegramRow :=
  (db.filter (fun r => r.id == integration_id && r.deleted_at.isNone)).head?

/-- Embeds `TelegramService.get_by_user`. -/
def get_by_user (db : List TelegramRow) (user_id : String) : List TelegramRow :=
  (db.filter (fun r => r.user_id == user_id && r.deleted_at.isNone)).reverse

/-- Embeds `TelegramService.get_user_id_by_telegram_user`: resolve the owning
user from the most recent non-deleted private-chat row of a Telegram user. -/
def get_user_id_by_telegram_user (db : List TelegramRow) (telegram_user_id : Int) :
    Option String :=
  (((db.filter (fun r =>
    r.telegram_user_id == some telegram_user_id &&
    r.chat_type == TelegramChatType.PRIVATE && r.deleted_at.isNone)).reverse).head?).map
    (fun r => r.user_id)

/-- Embeds `TelegramService.create_telegram_integration`: find-and-reactivate
the row for the (user, chat) tuple, soft-deleted rows included; otherwise
insert a fresh row. -/
def create_telegram_integration (db : List TelegramRow)
    (user_id : String) (telegram_user_id : Option Int) (channel_id : Int)
    (chat_type : TelegramChatType) (chat_title username first_name last_name language_code : Option String)
    (status : TelegramStatus) : TelegramRow × List TelegramRow :=
  match get_by_user_and_chat db user_id channel_id true with
  | some existing =>
    let updated : TelegramRow :=
      { existing with
        telegram_user_id := telegram_user_id
        chat_type := chat_type
        chat_title := chat_title
        username := username
        first_name := first_name
        last_name := last_name
        language_code := language_code
        status := status
        deleted_at := none }
    (updated, replaceByKey TelegramRow.id db existing.id updated)
  | none =>
    let row : TelegramRow :=
      { id := nextKey TelegramRow.id db
        user_id := user_id
        telegram_user_id := telegram_user_id
        channel_id := channel_id
        chat_type := chat_type
        chat_title := chat_title
        username := username
        first_name := first_name
        last_name := last_name
        language_code := language_code
        status := status
        deleted_at := none }
    (row, db ++ [row])

/-- Embeds `TelegramService.update_status`. -/
def update_status (db : List TelegramRow) (integration_id : Nat) (status : TelegramStatus) :
    Option TelegramRow × List TelegramRow :=
  match get_by_id db integration_id with
  | none => (none, db)
  | some entity =>
    let updated := { entity with status := status }
    (some updated, replaceByKey TelegramRow.id db entity.id updated)

/-- Embeds `TelegramService.delete`. -/
def delete (db : List TelegramRow) (integration_id : Nat) (now : Nat) :
    Bool × List TelegramRow :=
  match get_by_id db integration_id with
  | none => (false, db)
  | some entity =>
    let updated := { entity with deleted_at := some now, status := TelegramStatus.DISABLED }
    (true, replaceByKey TelegramRow.id db entity.id updated)

end TelegramService

/-! ### Integration store: Discord (`app/services/discord.py`) -/

namespace DiscordService

/-- The natural-key filter of `get_by_user_guild_channel`.  The source builds
`Discord.guild_id == guild_id if guild_id else Discord.guild_id.is_(None)`,
so a falsy (`None` or empty) argument matches NULL. -/
def tupleMatch (user_id : String) (guild_id channel_id : Option String) (r : DiscordRow) : Bool :=
  r.user_id == user_id &&
  (if pyTruthyStr guild_id then r.guild_id == guild_id else r.guild_id == none) &&
  (if pyTruthyStr channel_id then r.channel_id == channel_id else r.channel_id == none)

/-- Embeds `DiscordService.get_by_user_guild_channel`. -/
def get_by_user_guild_channel (db : List DiscordRow) (user_id : String)
    (guild_id channel_id : Option String) (include_deleted : Bool) : Option DiscordRow :=
  (db.filter (fun r =>
    tupleMatch user_id guild_id channel_id r && (include_deleted || r.deleted_at.isNone))).head?

/-- Embeds `DiscordService.get_by_id`. -/
def get_by_id (db : List DiscordRow) (integration_id : Nat) : Option DiscordRow :=
  (db.filter (fun r => r.id == integration_id && r.deleted_at.isNone)).head?

/-- Embeds `DiscordService.get_by_user`. -/
def get_by_user (db : List DiscordRow) (user_id : String) : List DiscordRow :=
  (db.filter (fun r => r.user_id == user_id && r.deleted_at.isNone)).reverse

/-- Embeds `DiscordService.create_discord_integration`: find-and-reactivate
the row for the (user, guild, channel) tuple, soft-deleted rows included;
otherwise insert a fresh row.  Note the update branch does not touch
`discord_user_id` or `owned_guild_ids`. -/
def create_discord_integration (db : List DiscordRow)
    (user_id discord_user_id : String) (username global_name : Option String)
    (guild_id guild_name channel_id channel_name : Option String)
    (status : DiscordStatus) (owned_guild_ids : Option String) :
    DiscordRow × List DiscordRow :=
  match get_by_user_guild_channel db user_id guild_id channel_id true with
  | some existing =>
    let updated : DiscordRow :=
      { existing with
        username := username
        global_name := global_name
        guild_name := guild_name
        channel_name := channel_name
        status := status
        deleted_at := none }
    (updated, replaceByKey DiscordRow.id db existing.id updated)
  | none =>
    let row : DiscordRow :=
      { id := nextKey DiscordRow.id db
        user_id := user_id
        discord_user_id := discord_user_id
        guild_id := guild_id
        guild_name := guild_name
        channel_id := channel_id
        channel_name := channel_name
        username := username
        global_name := global_name
        owned_guild_ids := owned_guild_ids
        status := status
        deleted_at := none }
    (row, db ++ [row])

/-- Embeds `DiscordService.update_status`. -/
def update_status (db : List DiscordRow) (integration_id : Nat) (status : DiscordStatus) :
    Option DiscordRow × List DiscordRow :=
  match get_by_id db integration_id with
  | none => (none, db)
  | some entity =>
    let updated := { entity with status := status }
    (some updated, replaceByKey DiscordRow.id db entity.id updated)

/-- Embeds `DiscordService.delete`. -/
def delete (db : List DiscordRow) (integration_id : Nat) (now : Nat) :
    Bool × List DiscordRow :=
  match get_by_id db integration_id with
  | none => (false, db)
  | some entity =>
    let updated := { entity with deleted_at := some now, status := DiscordStatus.DISABLED }
    (true, replaceByKey DiscordRow.id db entity.id updated)

end DiscordService

/-! ### HTTP response shapes returned by the routers -/

/-- Coarse shape of a handler's HTTP result: a `RedirectResponse`, a
`JSONResponse` with a status code and a body tag, a raised `HTTPException`,
or a `TestConnectionResponse` body. -/
inductive Resp where
  | redirect (url : String)
  | json (code : Nat) (body : String)
  | httpError (code : Nat) (detail : String)
  | testResult (success : Bool) (message : String)
deriving DecidableEq, Repr

/-- A response is an HTTP redirect. -/
def Resp.isRedirect : Resp → Bool
  | .redirect _ => true
  | _ => false

/-- A response is a raised `HTTPException` (a non-redirect error shown as a
plain HTTP error status). -/
def Resp.isHttpError : Resp → Bool
  | .httpError _ _ => true
  | _ => false

/-! ### Inbound signature verifiers (`routers/slack.py`, `routers/discord.py`)

Each verifier takes the cryptographic primitive as a function argument, so a
statement quantified over that argument holds for every possible digest or
signature-check outcome — in particular for one that makes the presented
signature byte-perfect. -/

/-- Embeds `_verify_slack_signature` (`routers/slack.py`): parse the
`X-Slack-Request-Timestamp` header (rejecting unparsable values, as the
source's `except` does), reject when the timestamp is more than 300 seconds
from current time, else compare `"v0=" + HMAC-SHA256(secret, "v0:ts:body")`
against the `X-Slack-Signature` header.  `hmacHex secret message` stands for
the hex digest. -/
def verify_slack_signature (hmacHex : String → String → String)
    (now : Int) (tsHeader sigHeader body signing_secret : String) : Bool :=
  match pyParseInt tsHeader with
  | none => false
  | some ts =>
    if (now - ts).natAbs > 60 * 5 then false
    else ("v0=" ++ hmacHex signing_secret ("v0:" ++ tsHeader ++ ":" ++ body)) == sigHeader

/-- Embeds `_verify_discord_interaction` (`routers/discord.py`): require the
`X-Signature-Ed25519` and `X-Signature-Timestamp` headers and a configured
public key, reject timestamps more than 300 seconds from current time, then
check the Ed25519 signature over `timestamp + body`.  `edVerify pk sig msg`
stands for the library verification (false also covers the source's
`ValueError` / `InvalidSignature` path). -/
def verify_discord_interaction (edVerify : String → String → String → Bool)
    (now : Int) (sigHex tsHeader publicKeyHex body : String) : Bool :=
  if sigHex == "" || tsHeader == "" || publicKeyHex == "" then false
  else
    match pyParseInt tsHeader with
    | none => false
    | some ts =>
      if (now - ts).natAbs > 60 * 5 then false
      else edVerify publicKeyHex sigHex (tsHeader ++ body)

/-- Embeds `_verify_telegram_secret` (`routers/telegram.py`): a constant
compare of the `X-Telegram-Bot-Api-Secret-Token` header against the
configured secret, false when the secret is empty. -/
def verify_telegram_secret (headerToken expected : String) : Bool :=
  expected ≠ "" && headerToken == expected

/-! ### OAuth state parsing (`state.split(":")[0]` in the three callbacks) -/

/-- Embeds the user-id extraction `state.split(":")[0]` shared by the Slack,
Discord and Teams OAuth callbacks: split on a colon (Python semantics) and
take element 0, which is a partial lookup in general. -/
def stateUserId (state : String) : Option String :=
  ((pySplitChar ':' state.data).map (fun l => String.mk l)).head?

/-! ### Slack OAuth callback (`routers/slack.py::oauth_callback`) -/

/-- Result of `slack_consumer.exchange_code_for_token`, the fields the
callback reads: `access_token`, `team.id`, `team.name`, `authed_user.id`,
`authed_user.access_token`, `bot_user_id`. -/
structure SlackOAuthData where
  access_token : Option String
  team_id : Option String
  team_name : Option String
  authed_user_id : Option String
  authed_user_token : Option String
  bot_user_id : Option String
deriving DecidableEq, Repr

/-- Embeds `routers/slack.py::oauth_callback`.  The token exchange's outcome
and the possibility of a persistence failure (`SQLAlchemyError` or any other
exception while storing, caught by the handler) are parameters.  Every
branch of the source returns a `RedirectResponse` to `frontend_url` with a
query flag.  The `invalid_state` branch mirrors the source's
`except (IndexError, ValueError)` around `state.split(":")[0]`. -/
def slack_oauth_callback (frontend_url : String) (state : String)
    (exchange : Except String SlackOAuthData) (dbError : Bool) (db : List SlackRow) :
    Resp × List SlackRow :=
  match stateUserId state with
  | none =>
    (.redirect (frontend_url ++ "/dashboard/channels/slack?error=invalid_state"), db)
  | some user_id =>
    match exchange with
    | .error _ =>
      (.redirect (frontend_url ++ "/dashboard/channels/slack?error=oauth_failed"), db)
    | .ok oauth_data =>
      if !(pyTruthyStr oauth_data.access_token && pyTruthyStr oauth_data.team_id) then
        (.redirect (frontend_url ++ "/dashboard/channels/slack?error=missing_data"), db)
      else if dbError then
        (.redirect (frontend_url ++ "/dashboard/channels/slack?error=database_error"), db)
      else
        let created := SlackService.create_slack_integration db user_id
          (oauth_data.team_id.getD "") oauth_data.team_name
          (oauth_data.access_token.getD "") oauth_data.bot_user_id
          oauth_data.authed_user_id oauth_data.authed_user_token
          (oauth_data.authed_user_id.getD "") none SlackStatus.ENABLED
        (.redirect (frontend_url ++
            "/dashboard/channels/slack?success=true&show_channel_selection=true&workspace_id="
            ++ oauth_data.team_id.getD ""), created.2)

/-- The continuation of `slack_oauth_callback` once a user id has been
extracted from `state`; used to state that the `invalid_state` error branch
is unreachable. -/
def slack_oauth_callback_with_user (frontend_url user_id : String)
    (exchange : Except String SlackOAuthData) (dbError : Bool) (db : List SlackRow) :
    Resp × List SlackRow :=
  match exchange with
  | .error _ =>
    (.redirect (frontend_url ++ "/dashboard/channels/slack?error=oauth_failed"), db)
  | .ok oauth_data =>
    if !(pyTruthyStr oauth_data.access_token && pyTruthyStr oauth_data.team_id) then
      (.redirect (frontend_url ++ "/dashboard/channels/slack?error=missing_data"), db)
    else if dbError then
      (.redirect (frontend_url ++ "/dashboard/channels/slack?error=database_error"), db)
    else
      let created := SlackService.create_slack_integration db user_id
        (oauth_data.team_id.getD "") oauth_data.team_name
        (oauth_data.access_token.getD "") oauth_data.bot_user_id
        oauth_data.authed_user_id oauth_data.authed_user_token
        (oauth_data.authed_user_id.getD "") none SlackStatus.ENABLED
      (.redirect (frontend_url ++
          "/dashboard/channels/slack?success=true&show_channel_selection=true&workspace_id="
          ++ oauth_data.team_id.getD ""), created.2)

/-! ### Signed-link verification endpoints (`GET /slack/verify`, `GET /discord/verify`) -/

/-- Claims of the signed verification token the handler reads after
`jwt.decode`: `purpose`, `integration_id`, `user_id`.  A decode failure
(`JWTError`: bad signature or expired token) is represented by the caller
passing `Except.error`. -/
structure VerifyTokenData where
  purpose : String
  integration_id : Option Nat
  user_id : Option String
deriving DecidableEq, Repr

/-- Embeds `routers/slack.py::verify_slack_integration`.  A `JWTError` from
decoding degrades to a redirect; a successfully decoded token with wrong
`purpose`, falsy fields, an unknown integration or a mismatched user raises
an `HTTPException` (re-raised by the handler's `except HTTPException`), and
only a passing token updates the status to ACTIVE and redirects. -/
def verify_slack_integration (frontend_url : String)
    (decoded : Except Unit VerifyTokenData) (db : List SlackRow) : Resp × List SlackRow :=
  match decoded with
  | .error _ =>
    (.redirect (frontend_url ++ "/dashboard/channels/slack?error=verify_failed"), db)
  | .ok data =>
    if data.purpose ≠ "slack_verify" then
      (.httpError 400 "Invalid token", db)
    else if !(pyTruthyNat data.integration_id && pyTruthyStr data.user_id) then
      (.httpError 400 "Invalid token data", db)
    else
      let iid := data.integration_id.getD 0
      match SlackService.get_by_id db iid with
      | none => (.httpError 404 "Integration not found", db)
      | some integration =>
        if some integration.user_id ≠ data.user_id then
          (.httpError 403 "Token user mismatch", db)
        else
          match SlackService.update_status db iid SlackStatus.ACTIVE with
          | (some _, db') =>
            (.redirect (frontend_url ++ "/dashboard/channels/slack?verified=true"), db')
          | (none, db') =>
            (.redirect (frontend_url ++ "/dashboard/channels/slack?error=verify_failed"), db')

/-- Embeds `routers/discord.py::verify_discord_integration`, structurally
identical to the Slack variant with the `discord_verify` purpose constant. -/
def verify_discord_integration (frontend_url : String)
    (decoded : Except Unit VerifyTokenData) (db : List DiscordRow) : Resp × List DiscordRow :=
  match decoded with
  | .error _ =>
    (.redirect (frontend_url ++ "/dashboard/channels/discord?error=verify_failed"), db)
  | .ok data =>
    if data.purpose ≠ "discord_verify" then
      (.httpError 400 "Invalid token", db)
    else if !(pyTruthyNat data.integration_id && pyTruthyStr data.user_id) then
      (.httpError 400 "Invalid token data", db)
    else
      let iid := data.integration_id.getD 0
      match DiscordService.get_by_id db iid with
      | none => (.httpError 404 "Integration not found", db)
      | some integration =>
        if some integration.user_id ≠ data.user_id then
          (.httpError 403 "Token user mismatch", db)
        else
          match DiscordService.update_status db iid DiscordStatus.ACTIVE with
          | (some _, db') =>
            (.redirect (frontend_url ++ "/dashboard/channels/discord?verified=true"), db')
          | (none, db') =>
            (.redirect (frontend_url ++ "/dashboard/channels/discord?error=verify_failed"), db')

/-! ### Python string helpers used by the handlers -/

/-- Python `str.startswith(prefix)`. -/
def pyStartsWith (pre s : String) : Bool :=
  s.data.take pre.data.length == pre.data

/-- Python `needle in haystack` substring test (for non-empty needles). -/
def pyInStr (needle haystack : String) : Bool :=
  (haystack.splitOn needle).length ≥ 2

/-! ### Test-message endpoints (`POST /{platform}/integrations/{id}/test`) -/

/-- Embeds `routers/slack.py::test_connection`.  `send` is the outcome of the
outbound Slack message call (`SlackAPIError` text on failure).  The handler
reads the integration, checks ownership, builds a verification URL, sends,
and reports; it never writes to the store, so the table is returned
untouched on every path. -/
def slack_test_connection (db : List SlackRow) (integration_id : Nat)
    (current_user_id : String) (verify_token : Option String)
    (send : Except String Unit) : Resp × List SlackRow :=
  match SlackService.get_by_id db integration_id with
  | none => (.httpError 404 "Slack integration not found", db)
  | some integration =>
    if integration.user_id ≠ current_user_id then
      (.httpError 403 "Not authorized to access this integration", db)
    else
      let is_dm := integration.slack_user_id == some integration.channel_id
      match send with
      | .ok _ =>
        if is_dm then
          (.testResult true "Test message sent to your Slack DM. Please confirm in DRR to activate.", db)
        else
          (.testResult true "Test message sent to the channel. Check Slack to confirm.", db)
      | .error e =>
        (.testResult false ("Failed to send test message: " ++ e), db)

/-- Embeds `routers/discord.py::test_connection`, including the
error-message pattern matching that categorizes DM privacy blockers and
missing channel permissions.  Like the Slack variant it never writes to the
store. -/
def discord_test_connection (db : List DiscordRow) (integration_id : Nat)
    (current_user_id : String) (verify_token : Option String)
    (send : Except String Unit) : Resp × List DiscordRow :=
  match DiscordService.get_by_id db integration_id with
  | none => (.httpError 404 "Discord integration not found", db)
  | some integration =>
    if integration.user_id ≠ current_user_id then
      (.httpError 403 "Not authorized to access this integration", db)
    else
      let is_dm := integration.guild_id == none
      match send with
      | .ok _ =>
        if is_dm then
          (.testResult true "Test message sent to your Discord DM. Please confirm in DRR to activate.", db)
        else
          (.testResult true "Test message sent to the channel. Check Discord to confirm.", db)
      | .error msg =>
        if pyInStr "Cannot send messages to this user" msg then
          (.testResult false "Discord prevented sending a DM. Check the privacy settings and retry.", db)
        else if pyInStr "Missing Access" msg || pyInStr "Missing Permissions" msg then
          (.testResult false "The bot lacks permission to post in this channel. Grant the DRR bot role access and try again.", db)
        else
          (.testResult false ("Failed to send test message: " ++ msg), db)

/-- Embeds `routers/telegram.py::test_integration`, including the
categorization of chat-not-found and bot-blocked errors.  Never writes to
the store. -/
def telegram_test_integration (db : List TelegramRow) (integration_id : Nat)
    (current_user_id : String) (send : Except String Unit) : Resp × List TelegramRow :=
  match TelegramService.get_by_id db integration_id with
  | none => (.httpError 404 "Integration not found", db)
  | some integration =>
    if integration.user_id ≠ current_user_id then
      (.httpError 403 "Not authorized to test this integration", db)
    else
      match send with
      | .ok _ =>
        if integration.chat_type == TelegramChatType.PRIVATE then
          (.testResult true "Test message sent to your Telegram DM. Please click the confirmation button in Telegram.", db)
        else
          (.testResult true "Test message sent to the group. Please click the confirmation button in Telegram.", db)
      | .error msg =>
        if pyInStr "Not Found" msg || pyInStr "chat not found" msg.toLower then
          if integration.chat_type == TelegramChatType.PRIVATE then
            (.testResult false "Cannot send message to this chat. Please reconnect and send /start to the bot.", db)
          else
            (.testResult false "Cannot send message to this group. Please add the bot back to the group.", db)
        else if pyInStr "Forbidden" msg || pyInStr "bot was blocked" msg.toLower then
          (.testResult false "Bot was blocked by the user. Please unblock the bot in Telegram and try again.", db)
        else
          (.testResult false msg, db)

/-! ### Deletion endpoints (`DELETE /{platform}/integrations/{id}`) -/

/-- Embeds `routers/slack.py::delete_integration`.  The best-effort remote
teardown (`uninstall_app`, then `revoke_token` when uninstall reported
false) is represented by its outcomes; the source wraps both in a
`try/except` that only logs, so no teardown outcome influences the local
soft delete that follows. -/
def slack_delete_integration (db : List SlackRow) (integration_id : Nat)
    (current_user_id : String) (now : Nat)
    (uninstall : Except Unit Bool) (revoke : Except Unit Bool) : Resp × List SlackRow :=
  match SlackService.get_by_id db integration_id with
  | none => (.httpError 404 "Slack integration not found", db)
  | some integration =>
    if integration.user_id ≠ current_user_id then
      (.httpError 403 "Not authorized to delete this integration", db)
    else
      -- teardown attempt: uninstall/revoke failures and exceptions are swallowed
      let deleted := SlackService.delete db integration_id now
      if deleted.1 then (.json 200 "Integration deleted successfully", deleted.2)
      else (.httpError 500 "Failed to delete integration", deleted.2)

/-- Embeds `routers/discord.py::delete_integration`, structurally identical
to the Slack variant. -/
def discord_delete_integration (db : List DiscordRow) (integration_id : Nat)
    (current_user_id : String) (now : Nat)
    (uninstall : Except Unit Bool) (revoke : Except Unit Bool) : Resp × List DiscordRow :=
  match DiscordService.get_by_id db integration_id with
  | none => (.httpError 404 "Discord integration not found", db)
  | some integration =>
    if integration.user_id ≠ current_user_id then
      (.httpError 403 "Not authorized to delete this integration", db)
    else
      let deleted := DiscordService.delete db integration_id now
      if deleted.1 then (.json 200 "Integration deleted successfully", deleted.2)
      else (.httpError 500 "Failed to delete integration", deleted.2)

/-! ### Channel discovery: Slack (`GET /slack/available-channels`) -/

/-- Entry of the Slack conversations lists, the fields the handler reads. -/
structure SlackApiChannel where
  id : Option String
  name : Option String
  name_normalized : Option String
  is_private : Option Bool
  creator : Option String
deriving DecidableEq, Repr

/-- One entry of the handler's `available` output list. -/
structure AvailSlackChannel where
  id : String
  name : String
  is_private : Bool
deriving DecidableEq, Repr

/-- Result of the Slack available-channels handler: an `HTTPException 500`
(platform or unexpected error), a JSON body with an empty list and a reason
code, or the workspace's available channel list. -/
inductive SlackChannelsResult where
  | apiError
  | emptyWithReason (code : String)
  | ok (workspace_id : String) (workspace_name : Option String)
       (channels : List AvailSlackChannel)
deriving DecidableEq, Repr

/-- Channels of the output list of `get_available_channels` (empty for the
error shapes). -/
def SlackChannelsResult.channels : SlackChannelsResult → List AvailSlackChannel
  | .ok _ _ cs => cs
  | _ => []

/-- Embeds `routers/slack.py::get_available_channels`: channels created by
the connected Slack user (via the stored user token) intersected with
channels the bot can see, each needing a displayable name.  The source
builds `created_channel_ids` as a set — embedded as a deduplicated list —
and looks channels up in a dict keyed by id built from the bot list (last
entry wins).  Note the handler never consults the user's existing
integration rows beyond the DM row used for credentials. -/
def slack_get_available_channels (db : List SlackRow) (current_user_id : String)
    (workspace_id : Option String)
    (userChannels : Except Unit (List SlackApiChannel))
    (botChannels : Except Unit (List SlackApiChannel)) : SlackChannelsResult :=
  match SlackService.get_dm_integration db current_user_id workspace_id with
  | none => .emptyWithReason "no_integration"
  | some dm =>
    if !(pyTruthyStr dm.user_token && pyTruthyStr dm.slack_user_id) then
      .emptyWithReason "no_user_token"
    else
      match userChannels with
      | .error _ => .apiError
      | .ok user_channels =>
        let created_channel_ids :=
          (user_channels.filterMap (fun ch =>
            if pyTruthyStr ch.id && ch.creator == dm.slack_user_id then ch.id else none)).eraseDups
        if created_channel_ids.isEmpty then .emptyWithReason "no_created_channels"
        else
          match (if pyTruthyStr dm.bot_user_id then botChannels else .ok []) with
          | .error _ => .apiError
          | .ok bot_channels =>
            let available := created_channel_ids.filterMap (fun cid =>
              match (bot_channels.filter (fun ch => ch.id == some cid)).getLast? with
              | none => none
              | some channel =>
                let nm := pyOrStr channel.name channel.name_normalized
                if !pyTruthyStr nm then none
                else some { id := cid, name := nm.getD "",
                            is_private := channel.is_private.getD false })
            if available.isEmpty then .emptyWithReason "bot_not_installed"
            else .ok dm.workspace_id dm.workspace_name available

/-! ### Channel discovery: Discord (`GET /discord/available-guilds`) -/

/-- Entry of the bot-guilds list, the fields the handler reads. -/
structure DiscordApiGuild where
  id : Option String
  name : Option String
  icon : Option String
deriving DecidableEq, Repr

/-- Entry of a guild's channel list, the fields the handler reads. -/
structure DiscordApiChannel where
  id : Option String
  name : Option String
  chtype : Option Int
deriving DecidableEq, Repr

/-- One channel entry of the handler's output. -/
structure AvailDiscordChannel where
  id : String
  name : String
  kind : String
deriving DecidableEq, Repr

/-- One guild entry of the handler's output. -/
structure AvailDiscordGuild where
  id : String
  name : Option String
  icon : Option String
  channels : List AvailDiscordChannel
deriving DecidableEq, Repr

/-- Result of the Discord available-guilds handler. -/
inductive DiscordGuildsResult where
  | serverError
  | emptyWithReason (code : Option String)
  | ok (guilds : List AvailDiscordGuild)
deriving DecidableEq, Repr

/-- Guild list of the handler's output (empty for the error shapes). -/
def DiscordGuildsResult.guilds : DiscordGuildsResult → List AvailDiscordGuild
  | .ok gs => gs
  | _ => []

/-- Embeds `routers/discord.py::get_available_guilds` as the endpoint
behaves: its first store call is `discord_service.get_dm_integration`, a
method `DiscordService` (`app/services/discord.py`) does not define, so the
handler raises `AttributeError` inside its `try`, the final
`except Exception` catches it, and the request always ends in
`HTTPException 500` — regardless of the stored rows, the bot's guilds or
the per-guild channel listings. -/
def discord_get_available_guilds (db : List DiscordRow) (current_user_id : String)
    (botGuilds : List DiscordApiGuild)
    (channelsOf : String → Except Unit (List DiscordApiChannel)) : DiscordGuildsResult :=
  DiscordGuildsResult.serverError

/-- The `integrated_channels` set of `get_available_guilds`: the (guild id,
channel id) pairs of the user's non-deleted integration rows where both ids
are present. -/
def discord_integrated_pairs (db : List DiscordRow) (current_user_id : String) :
    List (String × String) :=
  (DiscordService.get_by_user db current_user_id).filterMap (fun r =>
    match r.guild_id, r.channel_id with
    | some g, some c => some (g, c)
    | _, _ => none)

/-- Embeds the guild-assembly logic of `get_available_guilds` from the line
`if not dm_integration.owned_guild_ids` onward (`routers/discord.py`,
lines 750-839), parameterized by the DM row the handler intended to load:
stored user guilds ∩ bot guilds, per-guild text (0) and announcement (5)
channels, excluding pairs already present as the user's non-deleted
integration rows.  This code is unreachable in the deployed handler (see
`discord_get_available_guilds`) but is the source's exclusion rule. -/
def discord_available_guilds_core (dm : DiscordRow) (db : List DiscordRow)
    (current_user_id : String) (botGuilds : List DiscordApiGuild)
    (channelsOf : String → Except Unit (List DiscordApiChannel)) : DiscordGuildsResult :=
  if !pyTruthyStr dm.owned_guild_ids then .emptyWithReason (some "no_guilds")
  else
    let user_guild_ids :=
      (((pySplitChar ',' (dm.owned_guild_ids.getD "").data).map
        (fun l => String.mk l))).eraseDups
    if user_guild_ids.isEmpty then .emptyWithReason none
    else
      let available_guild_ids :=
        user_guild_ids.filter (fun gid => botGuilds.any (fun g => g.id == some gid))
      let integrated_channels := discord_integrated_pairs db current_user_id
      let available_guilds := available_guild_ids.filterMap (fun gid =>
        match (botGuilds.filter (fun g => g.id == some gid)).getLast? with
        | none => none
        | some guild =>
          match channelsOf gid with
          | .error _ => none
          | .ok channels =>
            let available_channels := channels.filterMap (fun ch =>
              if !(ch.chtype == some 0 || ch.chtype == some 5) then none
              else if (match ch.id with
                       | some c => integrated_channels.contains (gid, c)
                       | none => false) then none
              else if pyTruthyStr ch.id && pyTruthyStr ch.name then
                some { id := ch.id.getD "", name := ch.name.getD "",
                       kind := if ch.chtype == some 0 then "text" else "announcement" }
              else none)
            if available_channels.isEmpty then none
            else some { id := gid, name := guild.name, icon := guild.icon,
                        channels := available_channels })
      if available_guilds.isEmpty then .emptyWithReason none
      else .ok available_guilds

/-! ### Telegram webhook (`routers/telegram.py`)

The router module defines `POST /webhook` twice: `telegram_webhook` at line
336 (no secret verification, full update processing) and a second
`telegram_webhook` at line 730 (secret-token verification, acknowledge
only).  Both decorators register a route; Starlette dispatches a request to
the first registered route whose path and method match, so the line-336
handler serves every `POST /telegram/webhook` and the verifying handler is
unreachable. -/

/-- The `chat` object of a Telegram update, the fields the handlers read. -/
structure TgChat where
  id : Option Int
  ctype : Option String
  title : Option String
deriving DecidableEq, Repr

/-- The `from` user object of a Telegram update. -/
structure TgUser where
  id : Option Int
  username : Option String
  first_name : Option String
  last_name : Option String
  language_code : Option String
deriving DecidableEq, Repr

/-- The `message` object of a Telegram update.  A `none` sub-object embeds a
JSON value of `null`, on which the handlers' attribute accesses raise and
are swallowed. -/
structure TgMessage where
  chat : Option TgChat
  sender : Option TgUser
  text : Option String
deriving DecidableEq, Repr

/-- The `my_chat_member` / `chat_member` object of a Telegram update;
`new_status` is `new_chat_member.status`. -/
structure TgChatMember where
  chat : Option TgChat
  sender : Option TgUser
  new_status : Option String
deriving DecidableEq, Repr

/-- A Telegram webhook update, restricted to the keys `parse_update` reads. -/
structure TgUpdate where
  message : Option TgMessage
  my_chat_member : Option TgChatMember
  chat_member : Option TgChatMember
deriving DecidableEq, Repr

/-- Classification produced by `consumers/telegram.py::parse_update`. -/
inductive ParsedTgUpdate where
  | message (chat : Option TgChat) (sender : Option TgUser) (text : Option String)
  | botAdded (chat : Option TgChat) (sender : Option TgUser)
  | botRemoved (chat : Option TgChat) (sender : Option TgUser)
deriving DecidableEq, Repr

/-- Classify a chat-member transition the way `parse_update` does. -/
def classifyChatMember : Option TgChatMember → Option ParsedTgUpdate
  | none => none
  | some cm =>
    if cm.new_status == some "member" || cm.new_status == some "administrator" then
      some (.botAdded cm.chat cm.sender)
    else if cm.new_status == some "left" || cm.new_status == some "kicked" then
      some (.botRemoved cm.chat cm.sender)
    else none

/-- Embeds `consumers/telegram.py::parse_update`: a `message` key wins, then
`my_chat_member`, then `chat_member`; anything else is irrelevant. -/
def parse_update (u : TgUpdate) : Option ParsedTgUpdate :=
  match u.message with
  | some m => some (.message m.chat m.sender m.text)
  | none =>
    match classifyChatMember u.my_chat_member with
    | some p => some p
    | none => classifyChatMember u.chat_member

/-- Embeds `routers/telegram.py::handle_stop_command`: soft-delete the
non-deleted private-chat row with this chat id, if any.  Outbound goodbye
messages do not touch the store. -/
def handle_stop_command (db : List TelegramRow) (chat_id : Option Int) (now : Nat) :
    List TelegramRow :=
  match chat_id with
  | none => db
  | some cid =>
    match (db.filter (fun r =>
      r.channel_id == cid && r.chat_type == TelegramChatType.PRIVATE &&
      r.deleted_at.isNone)).head? with
    | none => db
    | some integration => (TelegramService.delete db integration.id now).2

/-- Embeds `routers/telegram.py::handle_message`: in a private chat, `/stop`
soft-deletes the DM row and `/start user_<id>` creates or reactivates the
DM integration for the embedded DRR user id; everything else (including a
missing chat, sender or text, whose attribute errors the handler's
`except` swallows) leaves the store unchanged. -/
def handle_message (db : List TelegramRow) (chat : Option TgChat)
    (sender : Option TgUser) (text : Option String) (now : Nat) : List TelegramRow :=
  match chat, sender with
  | some c, some f =>
    if c.ctype ≠ some "private" then db
    else
      match text with
      | none => db
      | some t =>
        if pyStartsWith "/stop" t then handle_stop_command db c.id now
        else if !pyStartsWith "/start" t then db
        else
          let parts := (pySplitChar '_' t.data).map (fun l => String.mk l)
          if parts.length < 2 then db
          else
            let drr_user_id := parts.getD 1 ""
            match c.id with
            | none => db
            | some cid =>
              (TelegramService.create_telegram_integration db drr_user_id f.id cid
                TelegramChatType.PRIVATE none f.username f.first_name f.last_name
                f.language_code TelegramStatus.ENABLED).2
  | _, _ => db

/-- Python-side conversion `TelegramChatType(chat_type)` for the group kinds
the added-to-chat handler accepts. -/
def chatTypeOfString : String → Option TelegramChatType
  | "private" => some TelegramChatType.PRIVATE
  | "group" => some TelegramChatType.GROUP
  | "supergroup" => some TelegramChatType.SUPERGROUP
  | "channel" => some TelegramChatType.CHANNEL
  | _ => none

/-- Embeds `routers/telegram.py::handle_bot_added_to_chat`: for a group,
supergroup or channel, attribute the chat to the DRR user whose DM row
matches the adding Telegram user, creating or reactivating a group row;
otherwise only an instructional message is sent and the store is
unchanged. -/
def handle_bot_added_to_chat (db : List TelegramRow) (chat : Option TgChat)
    (sender : Option TgUser) : List TelegramRow :=
  match chat, sender with
  | some c, some f =>
    match c.ctype with
    | some ct =>
      if !(ct == "group" || ct == "supergroup" || ct == "channel") then db
      else
        match f.id with
        | none => db
        | some tuid =>
          match TelegramService.get_user_id_by_telegram_user db tuid with
          | none => db
          | some drr_user_id =>
            match c.id, chatTypeOfString ct with
            | some cid, some k =>
              (TelegramService.create_telegram_integration db drr_user_id none cid
                k c.title none none none none TelegramStatus.ENABLED).2
            | _, _ => db
    | none => db
  | _, _ => db

/-- Embeds `routers/telegram.py::handle_bot_removed_from_chat`: soft-delete
the non-deleted row whose channel id is the chat the bot was removed
from. -/
def handle_bot_removed_from_chat (db : List TelegramRow) (chat : Option TgChat)
    (now : Nat) : List TelegramRow :=
  match chat with
  | none => db
  | some c =>
    match c.id with
    | none => db
    | some cid =>
      match (db.filter (fun r => r.channel_id == cid && r.deleted_at.isNone)).head? with
      | none => db
      | some integration => (TelegramService.delete db integration.id now).2

/-- Embeds the line-336 `routers/telegram.py::telegram_webhook`: no
authentication of any kind; parse the update and run the matching handler;
always acknowledge with 200, including on body-parse failure. -/
def telegram_webhook_unverified (now : Nat) (db : List TelegramRow)
    (body : Except Unit TgUpdate) : Resp × List TelegramRow :=
  match body with
  | .error _ => (.json 200 "ok", db)
  | .ok update =>
    match parse_update update with
    | none => (.json 200 "ok", db)
    | some (.message chat sender text) => (.json 200 "ok", handle_message db chat sender text now)
    | some (.botAdded chat sender) => (.json 200 "ok", handle_bot_added_to_chat db chat sender)
    | some (.botRemoved chat _) => (.json 200 "ok", handle_bot_removed_from_chat db chat now)

/-- Embeds the line-730 `routers/telegram.py::telegram_webhook`: require the
configured secret and a matching `X-Telegram-Bot-Api-Secret-Token` header,
then acknowledge without processing. -/
def telegram_webhook_verified (secret headerToken : String) (db : List TelegramRow) :
    Resp × List TelegramRow :=
  if secret == "" then (.json 500 "TELEGRAM_WEBHOOK_SECRET not configured", db)
  else if !verify_telegram_secret headerToken secret then
    (.json 401 "Invalid secret", db)
  else (.json 200 "ok", db)

/-- An inbound `POST /api/telegram/webhook` request: the secret-token header
and the parsed JSON body. -/
structure TgWebhookRequest where
  headerSecretToken : String
  body : Except Unit TgUpdate

/-- The router's route table for `POST` under `/api/telegram`, in
registration (source) order: both `telegram_webhook` definitions register
the same path. -/
def telegram_post_routes (secret : String) (now : Nat) :
    List (String × (TgWebhookRequest → List TelegramRow → Resp × List TelegramRow)) :=
  [ ("/api/telegram/webhook", fun req db => telegram_webhook_unverified now db req.body),
    ("/api/telegram/webhook", fun req db => telegram_webhook_verified secret req.headerSecretToken db) ]

/-- Starlette request dispatch: the first registered route whose path
matches serves the request. -/
def telegram_dispatch (secret : String) (now : Nat) (path : String)
    (req : TgWebhookRequest) (db : List TelegramRow) : Resp × List TelegramRow :=
  match (telegram_post_routes secret now).find? (fun r => r.1 == path) with
  | some r => r.2 req db
  | none => (.httpError 404 "Not Found", db)

/-! ### Generic list-store lemmas shared by the per-platform stores -/

theorem length_replaceByKey {α : Type} (key : α → Nat) (db : List α) (k : Nat) (e' : α) :
    (replaceByKey key db k e').length = db.length := by
  simp [replaceByKey]

theorem replaceByKey_eq_self {α : Type} (key : α → Nat) (db : List α) (k : Nat) (e' : α)
    (h : ∀ r ∈ db, key r ≠ k) : replaceByKey key db k e' = db := by
  induction db with
  | nil => rfl
  | cons a tl ih =>
    have ha : key a ≠ k := h a (List.mem_cons_self a tl)
    simp only [replaceByKey, List.map_cons]
    rw [if_neg (by simpa using ha)]
    have : replaceByKey key tl k e' = tl := ih (fun r hr => h r (List.mem_cons_of_mem a hr))
    simpa [replaceByKey] using this

theorem le_foldr_max (l : List Nat) (x : Nat) (hx : x ∈ l) : x ≤ l.foldr max 0 := by
  induction l with
  | nil => cases hx
  | cons a tl ih =>
    rcases List.mem_cons.mp hx with h | h
    · subst h; exact Nat.le_max_left _ _
    · exact le_trans (ih h) (Nat.le_max_right _ _)

theorem nextKey_not_mem {α : Type} (key : α → Nat) (db : List α) :
    ∀ r ∈ db, key r ≠ nextKey key db := by
  intro r hr h
  have hx : key r ∈ db.map key := List.mem_map_of_mem key hr
  have hle := le_foldr_max (db.map key) (key r) hx
  rw [h] at hle
  unfold nextKey at hle
  omega

theorem filter_replaceByKey_nil {α : Type} (key : α → Nat) (p : α → Bool)
    (db : List α) (k : Nat) (e' : α)
    (hnil : db.filter p = []) (hk : ∀ r ∈ db, key r ≠ k) :
    (replaceByKey key db k e').filter p = [] := by
  rw [replaceByKey_eq_self key db k e' hk]
  exact hnil

/-- Updating the unique row matched by `p` (with a replacement that still
matches `p` and keeps the key) leaves `p`-matching rows exactly `[e']`. -/
theorem filter_replaceByKey_singleton {α : Type} (key : α → Nat) (p : α → Bool)
    (db : List α) (e e' : α)
    (hnodup : (db.map key).Nodup)
    (hfilter : db.filter p = [e]) (hpe' : p e' = true) :
    (replaceByKey key db (key e) e').filter p = [e'] := by
  induction db with
  | nil => simp at hfilter
  | cons a tl ih =>
    have hcons : key a ∉ tl.map key ∧ (tl.map key).Nodup := by
      have h := hnodup
      rw [List.map_cons, List.nodup_cons] at h
      exact h
    have hnodup_tl : (tl.map key).Nodup := hcons.2
    have hnotmem : key a ∉ tl.map key := hcons.1
    by_cases hpa : p a = true
    · -- the head is the unique match: a = e and the tail has no match
      have hfa : a :: tl.filter p = [e] := by
        simpa [List.filter_cons, hpa] using hfilter
      have hae : a = e := by
        have := List.head_eq_of_cons_eq hfa; exact this
      have htl : tl.filter p = [] := List.tail_eq_of_cons_eq hfa
      subst hae
      have hktl : ∀ r ∈ tl, key r ≠ key a := by
        intro r hr h
        exact hnotmem (h ▸ List.mem_map_of_mem key hr)
      simp only [replaceByKey, List.map_cons, beq_self_eq_true, if_pos]
      have htl' : (replaceByKey key tl (key a) e').filter p = [] :=
        filter_replaceByKey_nil key p tl (key a) e' htl hktl
      simpa [List.filter_cons, hpe', replaceByKey] using htl'
    · -- the head does not match; the unique match e is in the tail
      have hfa : tl.filter p = [e] := by
        simpa [List.filter_cons, hpa] using hfilter
      have hetl : e ∈ tl := by
        have : e ∈ tl.filter p := by rw [hfa]; exact List.mem_singleton.mpr rfl
        exact List.mem_of_mem_filter this
      have hka : key a ≠ key e := by
        intro h
        exact hnotmem (h ▸ List.mem_map_of_mem key hetl)
      simp only [replaceByKey, List.map_cons]
      rw [if_neg (by simpa using hka)]
      have := ih hnodup_tl hfa
      simpa [List.filter_cons, hpa, replaceByKey] using this

theorem mem_replaceByKey {α : Type} (key : α → Nat) (db : List α) (k : Nat) (e' : α)
    (x : α) (hx : x ∈ replaceByKey key db k e') : x = e' ∨ (x ∈ db ∧ key x ≠ k) := by
  rcases List.mem_map.mp hx with ⟨r, hr, hrx⟩
  by_cases h : key r == k
  · left; rw [← hrx]; simp [h]
  · right
    have : x = r := by rw [← hrx]; simp [h]
    subst this
    exact ⟨hr, by simpa using h⟩

theorem map_key_replaceByKey {α : Type} (key : α → Nat) (db : List α) (k : Nat) (e' : α)
    (hk : key e' = k) : (replaceByKey key db k e').map key = db.map key := by
  induction db with
  | nil => rfl
  | cons a tl ih =>
    by_cases h : key a == k
    · simp only [replaceByKey, List.map_cons, if_pos h, List.map_cons] at *
      rw [ih]
      have : key a = k := by simpa using h
      rw [hk, this]
    · simp only [replaceByKey, List.map_cons, if_neg h] at *
      rw [ih]

theorem nodup_map_key_replaceByKey {α : Type} (key : α → Nat) (db : List α) (k : Nat)
    (e' : α) (hk : key e' = k) (h : (db.map key).Nodup) :
    ((replaceByKey key db k e').map key).Nodup := by
  rw [map_key_replaceByKey key db k e' hk]
  exact h

/-! ### Helper lemmas about the Python split and store lookups -/

theorem pySplitChar_ne_nil (sep : Char) (l : List Char) : pySplitChar sep l ≠ [] := by
  induction l with
  | nil => simp [pySplitChar]
  | cons c cs ih =>
    simp only [pySplitChar]
    split
    · simp
    · cases h : pySplitChar sep cs with
      | nil => simp
      | cons g gs => simp

theorem pySplitChar_of_not_mem (sep : Char) (l : List Char) (h : sep ∉ l) :
    pySplitChar sep l = [l] := by
  induction l with
  | nil => rfl
  | cons c cs ih =>
    have hc : ¬(c = sep) := fun he => h (he ▸ List.mem_cons_self c cs)
    have hcs : sep ∉ cs := fun hm => h (List.mem_cons_of_mem c hm)
    simp only [pySplitChar, if_neg hc, ih hcs]

theorem mem_of_head?_filter {α : Type} (p : α → Bool) (l : List α) (x : α)
    (h : (l.filter p).head? = some x) : x ∈ l ∧ p x = true := by
  cases hf : l.filter p with
  | nil => rw [hf] at h; simp at h
  | cons a t =>
    rw [hf] at h
    have hax : a = x := by simpa using h
    subst hax
    have hx : a ∈ l.filter p := by rw [hf]; exact List.mem_cons_self a t
    exact ⟨List.mem_of_mem_filter hx, List.of_mem_filter hx⟩

/-- C10: for every state string received by an OAuth callback — including
the empty string and strings with no colon — the extraction
`state.split(":")[0]` always yields a value (so the `invalid_state` error
branch is unreachable, and the callback behaves as its with-user
continuation), and a state without a colon is accepted with the whole
string as the user id. -/
theorem c10_state_split_total (state : String) :
    (stateUserId state).isSome = true ∧
    (':' ∉ state.data → stateUserId state = some state) ∧
    (∀ (frontend_url : String) (exchange : Except String SlackOAuthData) (dbError : Bool)
        (db : List SlackRow),
      slack_oauth_callback frontend_url state exchange dbError db =
        slack_oauth_callback_with_user frontend_url ((stateUserId state).getD "")
          exchange dbError db) := by
  have htot : (stateUserId state).isSome = true := by
    cases h : pySplitChar ':' state.data with
    | nil => exact absurd h (pySplitChar_ne_nil ':' state.data)
    | cons g gs => simp [stateUserId, h]
  refine ⟨htot, ?_, ?_⟩
  · intro hnc
    rw [stateUserId, pySplitChar_of_not_mem ':' state.data hnc]
    rfl
  · intro frontend_url exchange dbError db
    cases h : stateUserId state with
    | none => rw [h] at htot; simp at htot
    | some u =>
      simp only [slack_oauth_callback, slack_oauth_callback_with_user, h, Option.getD_some]

/-- Closed witness for C10 at a colon-free state string. -/
theorem c10_state_split_total_witness :
    ':' ∉ "u1abc".data ∧ stateUserId "u1abc" = some "u1abc" :=
  ⟨by decide, (c10_state_split_total "u1abc").2.1 (by decide)⟩

/-- C5: both timestamped signature verifiers reject a request whose
timestamp is more than 300 seconds from current time, whatever value the
HMAC-SHA256 digest or the Ed25519 check would produce — the theorem holds
for every `hmacHex` and `edVerify`, in particular for ones that make the
presented signature byte-perfect, which captures that the replay-window
check decides before the signature computation can matter. -/
theorem c5_replay_window_rejects (hmacHex : String → String → String)
    (edVerify : String → String → String → Bool) (now ts : Int)
    (tsHeader sigHeader body signing_secret sigHex publicKeyHex ibody : String)
    (hts : pyParseInt tsHeader = some ts)
    (hwin : (now - ts).natAbs > 300) :
    verify_slack_signature hmacHex now tsHeader sigHeader body signing_secret = false ∧
    verify_discord_interaction edVerify now sigHex tsHeader publicKeyHex ibody = false := by
  have h5 : (now - ts).natAbs > 60 * 5 := by omega
  constructor
  · unfold verify_slack_signature
    rw [hts]
    simp [h5]
  · unfold verify_discord_interaction
    by_cases h0 : (sigHex == "" || tsHeader == "" || publicKeyHex == "") = true
    · simp [h0]
    · rw [if_neg h0, hts]
      simp [h5]

/-- Closed witness for C5: a 1000-second-old timestamp is rejected even
though the supplied digest function makes the Slack signature byte-perfect
and the supplied Ed25519 check accepts everything. -/
theorem c5_replay_window_rejects_witness :
    pyParseInt "0" = some 0 ∧ ((1000 : Int) - 0).natAbs > 300 ∧
    verify_slack_signature (fun _ _ => "d") 1000 "0" "v0=d" "b" "s" = false ∧
    verify_discord_interaction (fun _ _ _ => true) 1000 "sig" "0" "pk" "b" = false :=
  ⟨by decide, by decide,
   (c5_replay_window_rejects (fun _ _ => "d") (fun _ _ _ => true) 1000 0 "0" "v0=d" "b" "s"
     "sig" "pk" "b" (by decide) (by decide)).1,
   (c5_replay_window_rejects (fun _ _ => "d") (fun _ _ _ => true) 1000 0 "0" "v0=d" "b" "s"
     "sig" "pk" "b" (by decide) (by decide)).2⟩

/-- C4: the three authenticated test-message endpoints return the store
untouched on every path — found or not, owned or not, send success or
failure — so no integration's status changes; in particular a successful
test send never turns ENABLED into ACTIVE. -/
theorem c4_test_message_preserves_status :
    ∀ (dbS : List SlackRow) (dbD : List DiscordRow) (dbT : List TelegramRow)
      (iS iD iT : Nat) (uS uD uT : String) (vS vD : Option String)
      (sS sD sT : Except String Unit),
      ((slack_test_connection dbS iS uS vS sS).2 = dbS ∧
        ∀ j, (SlackService.get_by_id (slack_test_connection dbS iS uS vS sS).2 j).map
          SlackRow.status = (SlackService.get_by_id dbS j).map SlackRow.status) ∧
      ((discord_test_connection dbD iD uD vD sD).2 = dbD ∧
        ∀ j, (DiscordService.get_by_id (discord_test_connection dbD iD uD vD sD).2 j).map
          DiscordRow.status = (DiscordService.get_by_id dbD j).map DiscordRow.status) ∧
      ((telegram_test_integration dbT iT uT sT).2 = dbT ∧
        ∀ j, (TelegramService.get_by_id (telegram_test_integration dbT iT uT sT).2 j).map
          TelegramRow.status = (TelegramService.get_by_id dbT j).map TelegramRow.status) := by
  intro dbS dbD dbT iS iD iT uS uD uT vS vD sS sD sT
  have hS : (slack_test_connection dbS iS uS vS sS).2 = dbS := by
    unfold slack_test_connection
    repeat' first
      | rfl
      | split
      | dsimp only
  have hD : (discord_test_connection dbD iD uD vD sD).2 = dbD := by
    unfold discord_test_connection
    repeat' first
      | rfl
      | split
      | dsimp only
  have hT : (telegram_test_integration dbT iT uT sT).2 = dbT := by
    unfold telegram_test_integration
    repeat' first
      | rfl
      | split
      | dsimp only
  exact ⟨⟨hS, fun j => by rw [hS]⟩, ⟨hD, fun j => by rw [hD]⟩, ⟨hT, fun j => by rw [hT]⟩⟩

theorem slack_get_by_id_spec (db : List SlackRow) (i : Nat) (r : SlackRow)
    (h : SlackService.get_by_id db i = some r) :
    r ∈ db ∧ r.id = i ∧ r.deleted_at = none := by
  unfold SlackService.get_by_id at h
  have hm := mem_of_head?_filter (fun r => r.id == i && r.deleted_at.isNone) db r h
  refine ⟨hm.1, ?_, ?_⟩
  · have := hm.2
    simp only [Bool.and_eq_true, beq_iff_eq] at this
    exact this.1
  · have := hm.2
    simp only [Bool.and_eq_true, Option.isNone_iff_eq_none] at this
    exact this.2

theorem discord_get_by_id_spec (db : List DiscordRow) (i : Nat) (r : DiscordRow)
    (h : DiscordService.get_by_id db i = some r) :
    r ∈ db ∧ r.id = i ∧ r.deleted_at = none := by
  unfold DiscordService.get_by_id at h
  have hm := mem_of_head?_filter (fun r => r.id == i && r.deleted_at.isNone) db r h
  refine ⟨hm.1, ?_, ?_⟩
  · have := hm.2
    simp only [Bool.and_eq_true, beq_iff_eq] at this
    exact this.1
  · have := hm.2
    simp only [Bool.and_eq_true, Option.isNone_iff_eq_none] at this
    exact this.2

theorem telegram_get_by_id_spec (db : List TelegramRow) (i : Nat) (r : TelegramRow)
    (h : TelegramService.get_by_id db i = some r) :
    r ∈ db ∧ r.id = i ∧ r.deleted_at = none := by
  unfold TelegramService.get_by_id at h
  have hm := mem_of_head?_filter (fun r => r.id == i && r.deleted_at.isNone) db r h
  refine ⟨hm.1, ?_, ?_⟩
  · have := hm.2
    simp only [Bool.and_eq_true, beq_iff_eq] at this
    exact this.1
  · have := hm.2
    simp only [Bool.and_eq_true, Option.isNone_iff_eq_none] at this
    exact this.2

/-- C2: on both signed-link verify endpoints, a token that decodes with a
valid signature but carries a wrong `purpose`, or whose embedded `user_id`
does not match the owner of the loaded integration, ends in a raised
`HTTPException` with the store untouched — the status is never updated to
ACTIVE for such a token. -/
theorem c2_verify_rejects_purpose_or_user_mismatch (frontend : String)
    (dataS dataD : VerifyTokenData) (dbS : List SlackRow) (dbD : List DiscordRow)
    (hS : dataS.purpose ≠ "slack_verify" ∨
      ∃ integ, SlackService.get_by_id dbS (dataS.integration_id.getD 0) = some integ ∧
        dataS.user_id ≠ some integ.user_id)
    (hD : dataD.purpose ≠ "discord_verify" ∨
      ∃ integ, DiscordService.get_by_id dbD (dataD.integration_id.getD 0) = some integ ∧
        dataD.user_id ≠ some integ.user_id) :
    ((verify_slack_integration frontend (.ok dataS) dbS).1.isHttpError = true ∧
     (verify_slack_integration frontend (.ok dataS) dbS).2 = dbS) ∧
    ((verify_discord_integration frontend (.ok dataD) dbD).1.isHttpError = true ∧
     (verify_discord_integration frontend (.ok dataD) dbD).2 = dbD) := by
  constructor
  · unfold verify_slack_integration
    dsimp only
    by_cases hp : dataS.purpose ≠ "slack_verify"
    · rw [if_pos hp]
      exact ⟨rfl, rfl⟩
    · rcases hS with hp' | ⟨integ, hget, hne⟩
      · exact absurd hp' hp
      · rw [if_neg hp]
        by_cases htr : (pyTruthyNat dataS.integration_id && pyTruthyStr dataS.user_id) = true
        · rw [if_neg (by simp [htr])]
          rw [hget]
          dsimp only
          rw [if_pos (Ne.symm hne)]
          exact ⟨rfl, rfl⟩
        · rw [if_pos (by simp [htr])]
          exact ⟨rfl, rfl⟩
  · unfold verify_discord_integration
    dsimp only
    by_cases hp : dataD.purpose ≠ "discord_verify"
    · rw [if_pos hp]
      exact ⟨rfl, rfl⟩
    · rcases hD with hp' | ⟨integ, hget, hne⟩
      · exact absurd hp' hp
      · rw [if_neg hp]
        by_cases htr : (pyTruthyNat dataD.integration_id && pyTruthyStr dataD.user_id) = true
        · rw [if_neg (by simp [htr])]
          rw [hget]
          dsimp only
          rw [if_pos (Ne.symm hne)]
          exact ⟨rfl, rfl⟩
        · rw [if_pos (by simp [htr])]
          exact ⟨rfl, rfl⟩

/-- Closed witness for C2: a validly-signed token with a wrong purpose on
each platform. -/
theorem c2_verify_rejects_witness :
    ("wrong" ≠ "slack_verify") ∧
    ((verify_slack_integration "F" (.ok ⟨"wrong", some 1, some "u1"⟩) []).1.isHttpError = true ∧
     (verify_slack_integration "F" (.ok ⟨"wrong", some 1, some "u1"⟩) []).2 = []) ∧
    ((verify_discord_integration "F" (.ok ⟨"wrong", some 1, some "u1"⟩) []).1.isHttpError = true ∧
     (verify_discord_integration "F" (.ok ⟨"wrong", some 1, some "u1"⟩) []).2 = []) := by
  refine ⟨by decide, ?_⟩
  exact c2_verify_rejects_purpose_or_user_mismatch "F" ⟨"wrong", some 1, some "u1"⟩
    ⟨"wrong", some 1, some "u1"⟩ [] [] (Or.inl (by decide)) (Or.inl (by decide))

/-- C7: under the ownership check, the delete endpoints always soft-delete
the local row, for every outcome of the best-effort remote teardown
(uninstall false, revocation raising, etc. — all swallowed by the source's
`try/except`); the response reports success and every stored row with the
deleted id carries the soft-delete timestamp. -/
theorem c7_delete_soft_deletes_despite_teardown
    (dbS : List SlackRow) (iS : Nat) (uS : String) (nowS : Nat)
    (unS rvS : Except Unit Bool) (integS : SlackRow)
    (dbD : List DiscordRow) (iD : Nat) (uD : String) (nowD : Nat)
    (unD rvD : Except Unit Bool) (integD : DiscordRow)
    (hS : SlackService.get_by_id dbS iS = some integS) (hSo : integS.user_id = uS)
    (hD : DiscordService.get_by_id dbD iD = some integD) (hDo : integD.user_id = uD) :
    ((slack_delete_integration dbS iS uS nowS unS rvS).1 =
        Resp.json 200 "Integration deleted successfully" ∧
     ∀ x ∈ (slack_delete_integration dbS iS uS nowS unS rvS).2,
        x.id = iS → x.deleted_at = some nowS) ∧
    ((discord_delete_integration dbD iD uD nowD unD rvD).1 =
        Resp.json 200 "Integration deleted successfully" ∧
     ∀ x ∈ (discord_delete_integration dbD iD uD nowD unD rvD).2,
        x.id = iD → x.deleted_at = some nowD) := by
  have hSid : integS.id = iS := (slack_get_by_id_spec dbS iS integS hS).2.1
  have hDid : integD.id = iD := (discord_get_by_id_spec dbD iD integD hD).2.1
  have hdelS : SlackService.delete dbS iS nowS =
      (true, replaceByKey SlackRow.id dbS integS.id
        { integS with deleted_at := some nowS, status := SlackStatus.DISABLED }) := by
    unfold SlackService.delete
    rw [hS]
  have hdelD : DiscordService.delete dbD iD nowD =
      (true, replaceByKey DiscordRow.id dbD integD.id
        { integD with deleted_at := some nowD, status := DiscordStatus.DISABLED }) := by
    unfold DiscordService.delete
    rw [hD]
  have hmainS : slack_delete_integration dbS iS uS nowS unS rvS =
      (Resp.json 200 "Integration deleted successfully",
       replaceByKey SlackRow.id dbS integS.id
         { integS with deleted_at := some nowS, status := SlackStatus.DISABLED }) := by
    unfold slack_delete_integration
    rw [hS]
    dsimp only
    rw [if_neg (by simp [hSo]), hdelS]
    simp
  have hmainD : discord_delete_integration dbD iD uD nowD unD rvD =
      (Resp.json 200 "Integration deleted successfully",
       replaceByKey DiscordRow.id dbD integD.id
         { integD with deleted_at := some nowD, status := DiscordStatus.DISABLED }) := by
    unfold discord_delete_integration
    rw [hD]
    dsimp only
    rw [if_neg (by simp [hDo]), hdelD]
    simp
  constructor
  · constructor
    · rw [hmainS]
    · intro x hx hxi
      rw [hmainS] at hx
      rcases mem_replaceByKey SlackRow.id dbS integS.id _ x hx with h | ⟨_, hne⟩
      · rw [h]
      · exact absurd (hxi.trans hSid.symm) hne
  · constructor
    · rw [hmainD]
    · intro x hx hxi
      rw [hmainD] at hx
      rcases mem_replaceByKey DiscordRow.id dbD integD.id _ x hx with h | ⟨_, hne⟩
      · rw [h]
      · exact absurd (hxi.trans hDid.symm) hne

/-- Closed witness for C7: a one-row store per platform, owner calling, a
teardown that raised. -/
theorem c7_delete_soft_deletes_witness :
    SlackService.get_by_id
      [{ id := 1, user_id := "u1", workspace_id := "W1", workspace_name := none,
         bot_token := "b", bot_user_id := none, slack_user_id := some "SU1",
         user_token := none, channel_id := "SU1", channel_name := none,
         status := SlackStatus.ACTIVE, deleted_at := none }] 1 =
      some { id := 1, user_id := "u1", workspace_id := "W1", workspace_name := none,
             bot_token := "b", bot_user_id := none, slack_user_id := some "SU1",
             user_token := none, channel_id := "SU1", channel_name := none,
             status := SlackStatus.ACTIVE, deleted_at := none } ∧
    ((slack_delete_integration
        [{ id := 1, user_id := "u1", workspace_id := "W1", workspace_name := none,
           bot_token := "b", bot_user_id := none, slack_user_id := some "SU1",
           user_token := none, channel_id := "SU1", channel_name := none,
           status := SlackStatus.ACTIVE, deleted_at := none }] 1 "u1" 99
        (.error ()) (.error ())).1 = Resp.json 200 "Integration deleted successfully" ∧
     ∀ x ∈ (slack_delete_integration
        [{ id := 1, user_id := "u1", workspace_id := "W1", workspace_name := none,
           bot_token := "b", bot_user_id := none, slack_user_id := some "SU1",
           user_token := none, channel_id := "SU1", channel_name := none,
           status := SlackStatus.ACTIVE, deleted_at := none }] 1 "u1" 99
        (.error ()) (.error ())).2, x.id = 1 → x.deleted_at = some 99) := by
  refine ⟨by decide, ?_⟩
  exact (c7_delete_soft_deletes_despite_teardown
    [{ id := 1, user_id := "u1", workspace_id := "W1", workspace_name := none,
       bot_token := "b", bot_user_id := none, slack_user_id := some "SU1",
       user_token := none, channel_id := "SU1", channel_name := none,
       status := SlackStatus.ACTIVE, deleted_at := none }] 1 "u1" 99 (.error ()) (.error ())
    { id := 1, user_id := "u1", workspace_id := "W1", workspace_name := none,
      bot_token := "b", bot_user_id := none, slack_user_id := some "SU1",
      user_token := none, channel_id := "SU1", channel_name := none,
      status := SlackStatus.ACTIVE, deleted_at := none }
    [{ id := 1, user_id := "u2", discord_user_id := "D1", guild_id := none,
       guild_name := none, channel_id := some "CH", channel_name := none,
       username := none, global_name := none, owned_guild_ids := none,
       status := DiscordStatus.ACTIVE, deleted_at := none }] 1 "u2" 77 (.ok false) (.ok false)
    { id := 1, user_id := "u2", discord_user_id := "D1", guild_id := none,
      guild_name := none, channel_id := some "CH", channel_name := none,
      username := none, global_name := none, owned_guild_ids := none,
      status := DiscordStatus.ACTIVE, deleted_at := none }
    (by decide) (by decide) (by decide) (by decide)).1

theorem slack_get_tuple_all (db : List SlackRow) (u w c : String) :
    SlackService.get_by_user_workspace_channel db u w c true =
    (db.filter (SlackService.tupleMatch u w c)).head? := by
  unfold SlackService.get_by_user_workspace_channel
  congr 1
  apply List.filter_congr
  intro r _
  simp

theorem telegram_get_tuple_all (db : List TelegramRow) (u : String) (cid : Int) :
    TelegramService.get_by_user_and_chat db u cid true =
    (db.filter (TelegramService.tupleMatch u cid)).head? := by
  unfold TelegramService.get_by_user_and_chat
  congr 1
  apply List.filter_congr
  intro r _
  simp

theorem filter_and_of_filter_singleton {α : Type} (p q : α → Bool) (l : List α) (x : α)
    (h : l.filter p = [x]) (hq : q x = true) :
    l.filter (fun a => p a && q a) = [x] := by
  induction l with
  | nil => simp at h
  | cons a tl ih =>
    by_cases hpa : p a = true
    · have hfa : a :: tl.filter p = [x] := by simpa [List.filter_cons, hpa] using h
      have hax : a = x := List.head_eq_of_cons_eq hfa
      have htl : tl.filter p = [] := List.tail_eq_of_cons_eq hfa
      subst hax
      have htl' : tl.filter (fun b => p b && q b) = [] := by
        rw [List.filter_eq_nil] at htl ⊢
        intro b hb
        simp only [Bool.and_eq_true, not_and]
        intro hpb
        exact absurd hpb (htl b hb)
      simp [List.filter_cons, hpa, hq, htl']
    · have hfa : tl.filter p = [x] := by simpa [List.filter_cons, hpa] using h
      have := ih hfa
      simp [List.filter_cons, hpa, this]

/-- Behaviour of `create_slack_integration` on a table whose ids are unique
and which holds at most one row (deleted or not) for the target tuple: the
rows matching the tuple afterwards are exactly the returned row, which is
not soft-deleted; ids stay unique; the table grows only when no row
existed, and an existing row keeps its id. -/
theorem slack_create_spec (db : List SlackRow) (u w : String) (won : Option String)
    (tok : String) (bu su ut : Option String) (c : String) (cn : Option String)
    (st : SlackStatus)
    (hnodup : (db.map SlackRow.id).Nodup)
    (hle : (db.filter (SlackService.tupleMatch u w c)).length ≤ 1) :
    ((SlackService.create_slack_integration db u w won tok bu su ut c cn st).2.filter
        (SlackService.tupleMatch u w c) =
      [(SlackService.create_slack_integration db u w won tok bu su ut c cn st).1]) ∧
    (SlackService.create_slack_integration db u w won tok bu su ut c cn st).1.deleted_at = none ∧
    (((SlackService.create_slack_integration db u w won tok bu su ut c cn st).2.map
        SlackRow.id).Nodup) ∧
    (db.filter (SlackService.tupleMatch u w c) = [] →
      (SlackService.create_slack_integration db u w won tok bu su ut c cn st).2.length =
        db.length + 1) ∧
    (∀ e, db.filter (SlackService.tupleMatch u w c) = [e] →
      (SlackService.create_slack_integration db u w won tok bu su ut c cn st).1.id = e.id ∧
      (SlackService.create_slack_integration db u w won tok bu su ut c cn st).2.length =
        db.length) := by
  cases hex : SlackService.get_by_user_workspace_channel db u w c true with
  | none =>
    have hnil : db.filter (SlackService.tupleMatch u w c) = [] := by
      rw [slack_get_tuple_all] at hex
      cases hf : db.filter (SlackService.tupleMatch u w c) with
      | nil => rfl
      | cons a t => rw [hf] at hex; simp at hex
    have hcreate : SlackService.create_slack_integration db u w won tok bu su ut c cn st =
        ({ id := nextKey SlackRow.id db, user_id := u, workspace_id := w,
           workspace_name := won, bot_token := tok, bot_user_id := bu,
           slack_user_id := su, user_token := ut, channel_id := c, channel_name := cn,
           status := st, deleted_at := none },
         db ++
           [{ id := nextKey SlackRow.id db, user_id := u, workspace_id := w,
              workspace_name := won, bot_token := tok, bot_user_id := bu,
              slack_user_id := su, user_token := ut, channel_id := c, channel_name := cn,
              status := st, deleted_at := none }]) := by
      unfold SlackService.create_slack_integration
      rw [hex]
    rw [hcreate]
    have hprow : SlackService.tupleMatch u w c
        { id := nextKey SlackRow.id db, user_id := u, workspace_id := w,
          workspace_name := won, bot_token := tok, bot_user_id := bu,
          slack_user_id := su, user_token := ut, channel_id := c, channel_name := cn,
          status := st, deleted_at := none } = true := by
      simp [SlackService.tupleMatch]
    refine ⟨?_, rfl, ?_, ?_, ?_⟩
    · rw [List.filter_append, hnil, List.nil_append]
      simp [hprow]
    · rw [List.map_append]
      rw [List.nodup_append]
      refine ⟨hnodup, by simp, ?_⟩
      intro x hx hx'
      simp only [List.map_cons, List.map_nil, List.mem_singleton] at hx'
      rcases List.mem_map.mp hx with ⟨r, hr, hrx⟩
      exact nextKey_not_mem SlackRow.id db r hr (by rw [← hx', ← hrx])
    · intro _
      simp
    · intro e he
      rw [hnil] at he
      simp at he
  | some e =>
    rw [slack_get_tuple_all] at hex
    obtain ⟨he_mem, he_p⟩ :=
      mem_of_head?_filter (SlackService.tupleMatch u w c) db e hex
    have hfe : db.filter (SlackService.tupleMatch u w c) = [e] := by
      cases hf : db.filter (SlackService.tupleMatch u w c) with
      | nil => rw [hf] at hex; simp at hex
      | cons a t =>
        rw [hf] at hex
        have hae : a = e := by simpa using hex
        have hlen := hle
        rw [hf] at hlen
        simp only [List.length_cons] at hlen
        have ht : t = [] := List.eq_nil_of_length_eq_zero (by omega)
        rw [hae, ht]
    have hcreate : SlackService.create_slack_integration db u w won tok bu su ut c cn st =
        ({ e with
            workspace_name := won, bot_token := tok, bot_user_id := bu,
            slack_user_id := su,
            user_token := if pyTruthyStr ut then ut else e.user_token,
            channel_name := cn, status := st, deleted_at := none },
         replaceByKey SlackRow.id db e.id
           { e with
             workspace_name := won, bot_token := tok, bot_user_id := bu,
             slack_user_id := su,
             user_token := if pyTruthyStr ut then ut else e.user_token,
             channel_name := cn, status := st, deleted_at := none }) := by
      unfold SlackService.create_slack_integration
      rw [← slack_get_tuple_all] at hex
      rw [hex]
    rw [hcreate]
    have hpupd : SlackService.tupleMatch u w c
        { e with
          workspace_name := won, bot_token := tok, bot_user_id := bu,
          slack_user_id := su,
          user_token := if pyTruthyStr ut then ut else e.user_token,
          channel_name := cn, status := st, deleted_at := none } = true := by
      simpa [SlackService.tupleMatch] using he_p
    refine ⟨?_, rfl, ?_, ?_, ?_⟩
    · exact filter_replaceByKey_singleton SlackRow.id (SlackService.tupleMatch u w c)
        db e _ hnodup hfe hpupd
    · exact nodup_map_key_replaceByKey SlackRow.id db e.id _ rfl hnodup
    · intro h
      rw [h] at hfe
      simp at hfe
    · intro e' he'
      rw [hfe] at he'
      have : e = e' := by simpa using he'
      subst this
      exact ⟨rfl, length_replaceByKey SlackRow.id db e.id _⟩

/-- Behaviour of `create_telegram_integration` under the same assumptions as
`slack_create_spec`. -/
theorem telegram_create_spec (db : List TelegramRow) (u : String) (tg : Option Int)
    (cid : Int) (ty : TelegramChatType) (tt un fn ln lc : Option String)
    (st : TelegramStatus)
    (hnodup : (db.map TelegramRow.id).Nodup)
    (hle : (db.filter (TelegramService.tupleMatch u cid)).length ≤ 1) :
    ((TelegramService.create_telegram_integration db u tg cid ty tt un fn ln lc st).2.filter
        (TelegramService.tupleMatch u cid) =
      [(TelegramService.create_telegram_integration db u tg cid ty tt un fn ln lc st).1]) ∧
    (TelegramService.create_telegram_integration db u tg cid ty tt un fn ln lc st).1.deleted_at
      = none ∧
    (((TelegramService.create_telegram_integration db u tg cid ty tt un fn ln lc st).2.map
        TelegramRow.id).Nodup) ∧
    (db.filter (TelegramService.tupleMatch u cid) = [] →
      (TelegramService.create_telegram_integration db u tg cid ty tt un fn ln lc st).2.length =
        db.length + 1) ∧
    (∀ e, db.filter (TelegramService.tupleMatch u cid) = [e] →
      (TelegramService.create_telegram_integration db u tg cid ty tt un fn ln lc st).1.id = e.id ∧
      (TelegramService.create_telegram_integration db u tg cid ty tt un fn ln lc st).2.length =
        db.length) := by
  cases hex : TelegramService.get_by_user_and_chat db u cid true with
  | none =>
    have hnil : db.filter (TelegramService.tupleMatch u cid) = [] := by
      rw [telegram_get_tuple_all] at hex
      cases hf : db.filter (TelegramService.tupleMatch u cid) with
      | nil => rfl
      | cons a t => rw [hf] at hex; simp at hex
    have hcreate : TelegramService.create_telegram_integration db u tg cid ty tt un fn ln lc st =
        ({ id := nextKey TelegramRow.id db, user_id := u, telegram_user_id := tg,
           channel_id := cid, chat_type := ty, chat_title := tt, username := un,
           first_name := fn, last_name := ln, language_code := lc,
           status := st, deleted_at := none },
         db ++
           [{ id := nextKey TelegramRow.id db, user_id := u, telegram_user_id := tg,
              channel_id := cid, chat_type := ty, chat_title := tt, username := un,
              first_name := fn, last_name := ln, language_code := lc,
              status := st, deleted_at := none }]) := by
      unfold TelegramService.create_telegram_integration
      rw [hex]
    rw [hcreate]
    have hprow : TelegramService.tupleMatch u cid
        { id := nextKey TelegramRow.id db, user_id := u, telegram_user_id := tg,
          channel_id := cid, chat_type := ty, chat_title := tt, username := un,
          first_name := fn, last_name := ln, language_code := lc,
          status := st, deleted_at := none } = true := by
      simp [TelegramService.tupleMatch]
    refine ⟨?_, rfl, ?_, ?_, ?_⟩
    · rw [List.filter_append, hnil, List.nil_append]
      simp [hprow]
    · rw [List.map_append]
      rw [List.nodup_append]
      refine ⟨hnodup, by simp, ?_⟩
      intro x hx hx'
      simp only [List.map_cons, List.map_nil, List.mem_singleton] at hx'
      rcases List.mem_map.mp hx with ⟨r, hr, hrx⟩
      exact nextKey_not_mem TelegramRow.id db r hr (by rw [← hx', ← hrx])
    · intro _
      simp
    · intro e he
      rw [hnil] at he
      simp at he
  | some e =>
    rw [telegram_get_tuple_all] at hex
    obtain ⟨he_mem, he_p⟩ :=
      mem_of_head?_filter (TelegramService.tupleMatch u cid) db e hex
    have hfe : db.filter (TelegramService.tupleMatch u cid) = [e] := by
      cases hf : db.filter (TelegramService.tupleMatch u cid) with
      | nil => rw [hf] at hex; simp at hex
      | cons a t =>
        rw [hf] at hex
        have hae : a = e := by simpa using hex
        have hlen := hle
        rw [hf] at hlen
        simp only [List.length_cons] at hlen
        have ht : t = [] := List.eq_nil_of_length_eq_zero (by omega)
        rw [hae, ht]
    have hcreate : TelegramService.create_telegram_integration db u tg cid ty tt un fn ln lc st =
        ({ e with
            telegram_user_id := tg, chat_type := ty, chat_title := tt, username := un,
            first_name := fn, last_name := ln, language_code := lc,
            status := st, deleted_at := none },
         replaceByKey TelegramRow.id db e.id
           { e with
             telegram_user_id := tg, chat_type := ty, chat_title := tt, username := un,
             first_name := fn, last_name := ln, language_code := lc,
             status := st, deleted_at := none }) := by
      unfold TelegramService.create_telegram_integration
      rw [← telegram_get_tuple_all] at hex
      rw [hex]
    rw [hcreate]
    have hpupd : TelegramService.tupleMatch u cid
        { e with
          telegram_user_id := tg, chat_type := ty, chat_title := tt, username := un,
          first_name := fn, last_name := ln, language_code := lc,
          status := st, deleted_at := none } = true := by
      simpa [TelegramService.tupleMatch] using he_p
    refine ⟨?_, rfl, ?_, ?_, ?_⟩
    · exact filter_replaceByKey_singleton TelegramRow.id (TelegramService.tupleMatch u cid)
        db e _ hnodup hfe hpupd
    · exact nodup_map_key_replaceByKey TelegramRow.id db e.id _ rfl hnodup
    · intro h
      rw [h] at hfe
      simp at hfe
    · intro e' he'
      rw [hfe] at he'
      have : e = e' := by simpa using he'
      subst this
      exact ⟨rfl, length_replaceByKey TelegramRow.id db e.id _⟩

/-- C1: for the platform integration stores, invoking create twice for the
same (user, container, channel) tuple — on a table with unique ids holding
at most one row for that tuple — leaves exactly one non-soft-deleted row
for the tuple: the second call finds the row written by the first
(soft-deleted included), updates its fields in place, clears `deleted_at`,
keeps its id, and inserts nothing. -/
theorem c1_create_twice_single_active_row
    (dbS : List SlackRow) (u w c : String)
    (won1 won2 : Option String) (tok1 tok2 : String)
    (bu1 bu2 su1 su2 ut1 ut2 : Option String) (cn1 cn2 : Option String)
    (st1 st2 : SlackStatus)
    (dbT : List TelegramRow) (tu : String) (tg1 tg2 : Option Int) (tcid : Int)
    (ty1 ty2 : TelegramChatType)
    (tt1 tt2 tun1 tun2 tfn1 tfn2 tln1 tln2 tlc1 tlc2 : Option String)
    (tst1 tst2 : TelegramStatus)
    (hSnodup : (dbS.map SlackRow.id).Nodup)
    (hSle : (dbS.filter (SlackService.tupleMatch u w c)).length ≤ 1)
    (hTnodup : (dbT.map TelegramRow.id).Nodup)
    (hTle : (dbT.filter (TelegramService.tupleMatch tu tcid)).length ≤ 1) :
    (let r1 := SlackService.create_slack_integration dbS u w won1 tok1 bu1 su1 ut1 c cn1 st1
     let r2 := SlackService.create_slack_integration r1.2 u w won2 tok2 bu2 su2 ut2 c cn2 st2
     r2.2.filter (fun r => SlackService.tupleMatch u w c r && r.deleted_at.isNone) = [r2.1] ∧
     r2.1.id = r1.1.id ∧ r2.1.deleted_at = none ∧ r2.2.length = r1.2.length) ∧
    (let s1 := TelegramService.create_telegram_integration dbT tu tg1 tcid ty1 tt1 tun1
       tfn1 tln1 tlc1 tst1
     let s2 := TelegramService.create_telegram_integration s1.2 tu tg2 tcid ty2 tt2 tun2
       tfn2 tln2 tlc2 tst2
     s2.2.filter (fun r => TelegramService.tupleMatch tu tcid r && r.deleted_at.isNone) = [s2.1] ∧
     s2.1.id = s1.1.id ∧ s2.1.deleted_at = none ∧ s2.2.length = s1.2.length) := by
  constructor
  · dsimp only
    obtain ⟨h1f, h1d, h1n, h1new, h1upd⟩ :=
      slack_create_spec dbS u w won1 tok1 bu1 su1 ut1 c cn1 st1 hSnodup hSle
    have hle2 : (((SlackService.create_slack_integration dbS u w won1 tok1 bu1 su1 ut1
        c cn1 st1).2).filter (SlackService.tupleMatch u w c)).length ≤ 1 := by
      rw [h1f]
      simp
    obtain ⟨h2f, h2d, h2n, h2new, h2upd⟩ :=
      slack_create_spec _ u w won2 tok2 bu2 su2 ut2 c cn2 st2 h1n hle2
    obtain ⟨hid, hlen⟩ := h2upd _ h1f
    refine ⟨?_, hid, h2d, hlen⟩
    exact filter_and_of_filter_singleton (SlackService.tupleMatch u w c)
      (fun r => r.deleted_at.isNone) _ _ h2f (by simp [h2d])
  · dsimp only
    obtain ⟨h1f, h1d, h1n, h1new, h1upd⟩ :=
      telegram_create_spec dbT tu tg1 tcid ty1 tt1 tun1 tfn1 tln1 tlc1 tst1 hTnodup hTle
    have hle2 : (((TelegramService.create_telegram_integration dbT tu tg1 tcid ty1 tt1 tun1
        tfn1 tln1 tlc1 tst1).2).filter (TelegramService.tupleMatch tu tcid)).length ≤ 1 := by
      rw [h1f]
      simp
    obtain ⟨h2f, h2d, h2n, h2new, h2upd⟩ :=
      telegram_create_spec _ tu tg2 tcid ty2 tt2 tun2 tfn2 tln2 tlc2 tst2 h1n hle2
    obtain ⟨hid, hlen⟩ := h2upd _ h1f
    refine ⟨?_, hid, h2d, hlen⟩
    exact filter_and_of_filter_singleton (TelegramService.tupleMatch tu tcid)
      (fun r => r.deleted_at.isNone) _ _ h2f (by simp [h2d])

/-- Closed witness for C1: two creates for the same tuple starting from an
empty store, on both platforms. -/
theorem c1_create_twice_witness :
    ((([] : List SlackRow).map SlackRow.id).Nodup ∧
      (([] : List SlackRow).filter (SlackService.tupleMatch "u1" "W1" "C1")).length ≤ 1) ∧
    (let r1 := SlackService.create_slack_integration [] "u1" "W1" none "t1" none
       (some "SU") none "C1" none SlackStatus.ENABLED
     let r2 := SlackService.create_slack_integration r1.2 "u1" "W1" none "t2" none
       (some "SU") none "C1" none SlackStatus.ENABLED
     r2.2.filter (fun r => SlackService.tupleMatch "u1" "W1" "C1" r && r.deleted_at.isNone)
       = [r2.1] ∧
     r2.1.id = r1.1.id ∧ r2.1.deleted_at = none ∧ r2.2.length = r1.2.length) :=
  ⟨⟨by decide, by decide⟩,
   (c1_create_twice_single_active_row [] "u1" "W1" "C1" none none "t1" "t2" none none
     (some "SU") (some "SU") none none none none SlackStatus.ENABLED SlackStatus.ENABLED
     [] "tu" none none 9 TelegramChatType.PRIVATE TelegramChatType.PRIVATE
     none none none none none none none none none none
     TelegramStatus.ENABLED TelegramStatus.ENABLED
     (by decide) (by decide) (by decide) (by decide)).1⟩

/-- C3 (code bug): the router registers `POST /webhook` twice and Starlette
serves the first registration, which never reads the
`X-Telegram-Bot-Api-Secret-Token` header; a request with a wrong secret and
a `/start user_42` private message is fully processed — it creates an
integration row for user 42 and is acknowledged with 200 — while the
shadowed verifying handler would have rejected the same request with 401. -/
theorem c3_webhook_bad_secret_still_processed :
    telegram_dispatch "s3cret" 77 "/api/telegram/webhook"
      { headerSecretToken := "wrong",
        body := Except.ok
          { message := some
              { chat := some { id := some 5, ctype := some "private", title := none },
                sender := some
                  { id := some 7, username := none, first_name := none,
                    last_name := none, language_code := none },
                text := some "/start user_42" },
            my_chat_member := none, chat_member := none } } [] =
    (Resp.json 200 "ok",
     [{ id := 1, user_id := "42", telegram_user_id := some 7, channel_id := 5,
        chat_type := TelegramChatType.PRIVATE, chat_title := none, username := none,
        first_name := none, last_name := none, language_code := none,
        status := TelegramStatus.ENABLED, deleted_at := none }]) ∧
    telegram_webhook_verified "s3cret" "wrong" [] = (Resp.json 401 "Invalid secret", []) := by
  constructor
  · decide
  · decide

theorem slack_get_by_id_none (db : List SlackRow) (i : Nat)
    (h : ∀ r ∈ db, r.id = i → r.deleted_at ≠ none) :
    SlackService.get_by_id db i = none := by
  unfold SlackService.get_by_id
  have hnil : db.filter (fun r => r.id == i && r.deleted_at.isNone) = [] := by
    rw [List.filter_eq_nil_iff]
    intro r hr
    simp only [Bool.and_eq_true, beq_iff_eq, Option.isNone_iff_eq_none, not_and]
    intro hid
    exact h r hr hid
  rw [hnil]
  rfl

theorem telegram_get_by_id_none (db : List TelegramRow) (i : Nat)
    (h : ∀ r ∈ db, r.id = i → r.deleted_at ≠ none) :
    TelegramService.get_by_id db i = none := by
  unfold TelegramService.get_by_id
  have hnil : db.filter (fun r => r.id == i && r.deleted_at.isNone) = [] := by
    rw [List.filter_eq_nil_iff]
    intro r hr
    simp only [Bool.and_eq_true, beq_iff_eq, Option.isNone_iff_eq_none, not_and]
    intro hid
    exact h r hr hid
  rw [hnil]
  rfl

theorem discord_get_by_id_none (db : List DiscordRow) (i : Nat)
    (h : ∀ r ∈ db, r.id = i → r.deleted_at ≠ none) :
    DiscordService.get_by_id db i = none := by
  unfold DiscordService.get_by_id
  have hnil : db.filter (fun r => r.id == i && r.deleted_at.isNone) = [] := by
    rw [List.filter_eq_nil_iff]
    intro r hr
    simp only [Bool.and_eq_true, beq_iff_eq, Option.isNone_iff_eq_none, not_and]
    intro hid
    exact h r hr hid
  rw [hnil]
  rfl

/-- C9 (counterexample): a soft-deleted Slack row is moved out of the
soft-deleted state by a subsequent create for the same tuple — `deleted_at`
is cleared and the same id is reused — so soft-deleted is not a terminal
absorbing state. -/
theorem c9_soft_delete_reactivated_counterexample :
    (SlackService.create_slack_integration
      [{ id := 1, user_id := "u1", workspace_id := "W1", workspace_name := none,
         bot_token := "tokOld", bot_user_id := none, slack_user_id := some "SU1",
         user_token := none, channel_id := "C1", channel_name := none,
         status := SlackStatus.ENABLED, deleted_at := some 50 }]
      "u1" "W1" none "tokNew" none (some "SU1") none "C1" none
      SlackStatus.ENABLED).1.deleted_at = none ∧
    (SlackService.create_slack_integration
      [{ id := 1, user_id := "u1", workspace_id := "W1", workspace_name := none,
         bot_token := "tokOld", bot_user_id := none, slack_user_id := some "SU1",
         user_token := none, channel_id := "C1", channel_name := none,
         status := SlackStatus.ENABLED, deleted_at := some 50 }]
      "u1" "W1" none "tokNew" none (some "SU1") none "C1" none
      SlackStatus.ENABLED).1.id = 1 := by
  constructor
  · decide
  · decide

/-- C9 (amended): on all three stores, soft-deleted is reachable from each
of DISABLED, ENABLED and ACTIVE (delete works whatever the status), and
status updates and deletes skip soft-deleted rows; soft-deleted is not
terminal, however, because each store's create operation reactivates a
soft-deleted row for the same tuple, clearing `deleted_at` and reusing its
id. -/
theorem c9_soft_delete_absorbing_except_create :
    (∀ (db : List SlackRow) (i now : Nat) (r : SlackRow),
        SlackService.get_by_id db i = some r →
        (SlackService.delete db i now).1 = true ∧
        ∀ x ∈ (SlackService.delete db i now).2, x.id = i → x.deleted_at = some now) ∧
    (∀ (db : List SlackRow) (i : Nat) (st : SlackStatus),
        (∀ r ∈ db, r.id = i → r.deleted_at ≠ none) →
        SlackService.update_status db i st = (none, db)) ∧
    (∀ (db : List SlackRow) (i now : Nat),
        (∀ r ∈ db, r.id = i → r.deleted_at ≠ none) →
        SlackService.delete db i now = (false, db)) ∧
    (∀ (db : List SlackRow) (u w : String) (won : Option String) (tok : String)
        (bu su ut : Option String) (c : String) (cn : Option String) (st : SlackStatus)
        (e : SlackRow),
        SlackService.get_by_user_workspace_channel db u w c true = some e →
        (SlackService.create_slack_integration db u w won tok bu su ut c cn st).1.deleted_at
          = none ∧
        (SlackService.create_slack_integration db u w won tok bu su ut c cn st).1.id = e.id) ∧
    (∀ (db : List TelegramRow) (i now : Nat) (r : TelegramRow),
        TelegramService.get_by_id db i = some r →
        (TelegramService.delete db i now).1 = true ∧
        ∀ x ∈ (TelegramService.delete db i now).2, x.id = i → x.deleted_at = some now) ∧
    (∀ (db : List TelegramRow) (i : Nat) (st : TelegramStatus),
        (∀ r ∈ db, r.id = i → r.deleted_at ≠ none) →
        TelegramService.update_status db i st = (none, db)) ∧
    (∀ (db : List TelegramRow) (i now : Nat),
        (∀ r ∈ db, r.id = i → r.deleted_at ≠ none) →
        TelegramService.delete db i now = (false, db)) ∧
    (∀ (db : List TelegramRow) (u : String) (tg : Option Int) (cid : Int)
        (ty : TelegramChatType) (tt un fn ln lc : Option String) (st : TelegramStatus)
        (e : TelegramRow),
        TelegramService.get_by_user_and_chat db u cid true = some e →
        (TelegramService.create_telegram_integration db u tg cid ty tt un fn ln lc st).1.deleted_at
          = none ∧
        (TelegramService.create_telegram_integration db u tg cid ty tt un fn ln lc st).1.id
          = e.id) ∧
    (∀ (db : List DiscordRow) (i now : Nat) (r : DiscordRow),
        DiscordService.get_by_id db i = some r →
        (DiscordService.delete db i now).1 = true ∧
        ∀ x ∈ (DiscordService.delete db i now).2, x.id = i → x.deleted_at = some now) ∧
    (∀ (db : List DiscordRow) (i : Nat) (st : DiscordStatus),
        (∀ r ∈ db, r.id = i → r.deleted_at ≠ none) →
        DiscordService.update_status db i st = (none, db)) ∧
    (∀ (db : List DiscordRow) (i now : Nat),
        (∀ r ∈ db, r.id = i → r.deleted_at ≠ none) →
        DiscordService.delete db i now = (false, db)) ∧
    (∀ (db : List DiscordRow) (u du : String) (un gn : Option String)
        (gid gname cid cname : Option String) (st : DiscordStatus)
        (ogids : Option String) (e : DiscordRow),
        DiscordService.get_by_user_guild_channel db u gid cid true = some e →
        (DiscordService.create_discord_integration db u du un gn gid gname cid cname
          st ogids).1.deleted_at = none ∧
        (DiscordService.create_discord_integration db u du un gn gid gname cid cname
          st ogids).1.id = e.id) := by
  refine ⟨?_, ?_, ?_, ?_, ?_, ?_, ?_, ?_, ?_, ?_, ?_, ?_⟩
  · intro db i now r h
    have hid : r.id = i := (slack_get_by_id_spec db i r h).2.1
    have hdel : SlackService.delete db i now =
        (true, replaceByKey SlackRow.id db r.id
          { r with deleted_at := some now, status := SlackStatus.DISABLED }) := by
      unfold SlackService.delete
      rw [h]
    rw [hdel]
    refine ⟨rfl, ?_⟩
    intro x hx hxi
    rcases mem_replaceByKey SlackRow.id db r.id _ x hx with he | ⟨_, hne⟩
    · rw [he]
    · exact absurd (hxi.trans hid.symm) hne
  · intro db i st h
    unfold SlackService.update_status
    rw [slack_get_by_id_none db i h]
  · intro db i now h
    unfold SlackService.delete
    rw [slack_get_by_id_none db i h]
  · intro db u w won tok bu su ut c cn st e h
    unfold SlackService.create_slack_integration
    rw [h]
    exact ⟨rfl, rfl⟩
  · intro db i now r h
    have hid : r.id = i := (telegram_get_by_id_spec db i r h).2.1
    have hdel : TelegramService.delete db i now =
        (true, replaceByKey TelegramRow.id db r.id
          { r with deleted_at := some now, status := TelegramStatus.DISABLED }) := by
      unfold TelegramService.delete
      rw [h]
    rw [hdel]
    refine ⟨rfl, ?_⟩
    intro x hx hxi
    rcases mem_replaceByKey TelegramRow.id db r.id _ x hx with he | ⟨_, hne⟩
    · rw [he]
    · exact absurd (hxi.trans hid.symm) hne
  · intro db i st h
    unfold TelegramService.update_status
    rw [telegram_get_by_id_none db i h]
  · intro db i now h
    unfold TelegramService.delete
    rw [telegram_get_by_id_none db i h]
  · intro db u tg cid ty tt un fn ln lc st e h
    unfold TelegramService.create_telegram_integration
    rw [h]
    exact ⟨rfl, rfl⟩
  · intro db i now r h
    have hid : r.id = i := (discord_get_by_id_spec db i r h).2.1
    have hdel : DiscordService.delete db i now =
        (true, replaceByKey DiscordRow.id db r.id
          { r with deleted_at := some now, status := DiscordStatus.DISABLED }) := by
      unfold DiscordService.delete
      rw [h]
    rw [hdel]
    refine ⟨rfl, ?_⟩
    intro x hx hxi
    rcases mem_replaceByKey DiscordRow.id db r.id _ x hx with he | ⟨_, hne⟩
    · rw [he]
    · exact absurd (hxi.trans hid.symm) hne
  · intro db i st h
    unfold DiscordService.update_status
    rw [discord_get_by_id_none db i h]
  · intro db i now h
    unfold DiscordService.delete
    rw [discord_get_by_id_none db i h]
  · intro db u du un gn gid gname cid cname st ogids e h
    unfold DiscordService.create_discord_integration
    rw [h]
    exact ⟨rfl, rfl⟩

/-- Closed witness for C9 (amended): a soft-deleted one-row Slack store is
skipped by update_status, and delete reaches soft-deleted from ACTIVE. -/
theorem c9_soft_delete_absorbing_witness :
    (∀ r ∈ ([{ id := 1, user_id := "u1", workspace_id := "W1", workspace_name := none,
               bot_token := "b", bot_user_id := none, slack_user_id := some "SU1",
               user_token := none, channel_id := "C1", channel_name := none,
               status := SlackStatus.ENABLED, deleted_at := some 50 }] : List SlackRow),
        r.id = 1 → r.deleted_at ≠ none) ∧
    SlackService.update_status
      [{ id := 1, user_id := "u1", workspace_id := "W1", workspace_name := none,
         bot_token := "b", bot_user_id := none, slack_user_id := some "SU1",
         user_token := none, channel_id := "C1", channel_name := none,
         status := SlackStatus.ENABLED, deleted_at := some 50 }] 1 SlackStatus.ACTIVE =
      (none,
       [{ id := 1, user_id := "u1", workspace_id := "W1", workspace_name := none,
          bot_token := "b", bot_user_id := none, slack_user_id := some "SU1",
          user_token := none, channel_id := "C1", channel_name := none,
          status := SlackStatus.ENABLED, deleted_at := some 50 }]) :=
  ⟨by decide,
   c9_soft_delete_absorbing_except_create.2.1
     [{ id := 1, user_id := "u1", workspace_id := "W1", workspace_name := none,
        bot_token := "b", bot_user_id := none, slack_user_id := some "SU1",
        user_token := none, channel_id := "C1", channel_name := none,
        status := SlackStatus.ENABLED, deleted_at := some 50 }] 1 SlackStatus.ACTIVE
     (by decide)⟩

/-- C8 (counterexample): on the signed-link verify endpoint, a token that
decodes with a valid signature but a wrong purpose ends in a raised
`HTTPException 400` — a non-redirect error response shown to the browser —
contradicting the claim that every failure outcome of the browser-flow
endpoints redirects. -/
theorem c8_verify_nonredirect_counterexample :
    verify_slack_integration "F"
      (.ok { purpose := "bad", integration_id := some 1, user_id := some "u1" }) [] =
      (Resp.httpError 400 "Invalid token", []) := by
  decide

theorem filter_append_singleton_false {α : Type} (p : α → Bool) (l : List α) (x : α)
    (hx : p x = false) : (l ++ [x]).filter p = l.filter p := by
  rw [List.filter_append]
  simp [hx]

theorem slack_get_dm_append_non_dm (db : List SlackRow) (uid : String) (ws : Option String)
    (extra : SlackRow) (h : some extra.channel_id ≠ extra.slack_user_id) :
    SlackService.get_dm_integration (db ++ [extra]) uid ws =
    SlackService.get_dm_integration db uid ws := by
  unfold SlackService.get_dm_integration
  rw [filter_append_singleton_false]
  simp [h]

/-- C8 (amended): every outcome of the Slack OAuth callback — invalid state,
exchange failure, missing data, database error, success — is an HTTP
redirect to the frontend, and the verify endpoint redirects when the token
fails to decode (bad signature or expired); but a token that decodes
successfully and has a wrong purpose is answered with a non-redirect
`HTTPException 400`, with the store untouched. -/
theorem c8_failures_redirect_except_valid_token_errors :
    (∀ (frontend state : String) (exchange : Except String SlackOAuthData)
        (dbError : Bool) (db : List SlackRow),
      (slack_oauth_callback frontend state exchange dbError db).1.isRedirect = true) ∧
    (∀ (frontend : String) (db : List SlackRow),
      (verify_slack_integration frontend (.error ()) db).1.isRedirect = true ∧
      (verify_slack_integration frontend (.error ()) db).2 = db) ∧
    (∀ (frontend : String) (data : VerifyTokenData) (db : List SlackRow),
      data.purpose ≠ "slack_verify" →
      verify_slack_integration frontend (.ok data) db =
        (Resp.httpError 400 "Invalid token", db)) := by
  refine ⟨?_, ?_, ?_⟩
  · intro frontend state exchange dbError db
    unfold slack_oauth_callback
    repeat' first
      | rfl
      | split
      | dsimp only
  · intro frontend db
    exact ⟨rfl, rfl⟩
  · intro frontend data db h
    unfold verify_slack_integration
    dsimp only
    rw [if_pos h]

/-- Closed witness for C8 (amended): the OAuth callback redirects on a
failed exchange, and the verify endpoint returns a 400 for a valid-signature
token with a wrong purpose. -/
theorem c8_failures_redirect_witness :
    (slack_oauth_callback "F" "u1:r" (.error "boom") false []).1.isRedirect = true ∧
    ("bad" ≠ "slack_verify") ∧
    verify_slack_integration "F"
      (.ok { purpose := "bad", integration_id := none, user_id := none }) [] =
      (Resp.httpError 400 "Invalid token", []) :=
  ⟨c8_failures_redirect_except_valid_token_errors.1 "F" "u1:r" (.error "boom") false [],
   by decide,
   c8_failures_redirect_except_valid_token_errors.2.2 "F"
     { purpose := "bad", integration_id := none, user_id := none } [] (by decide)⟩

/-- C6 (counterexample): the Slack discovery endpoint returns channel C123
even though a non-soft-deleted integration row for the same user already
covers (W1, C123) — Slack's handler has no exclusion of already-integrated
channels. -/
theorem c6_slack_returns_integrated_channel :
    (slack_get_available_channels
      [{ id := 1, user_id := "u1", workspace_id := "W1", workspace_name := some "WS",
         bot_token := "bot", bot_user_id := some "B1", slack_user_id := some "SU1",
         user_token := some "utok", channel_id := "SU1", channel_name := none,
         status := SlackStatus.ACTIVE, deleted_at := none },
       { id := 2, user_id := "u1", workspace_id := "W1", workspace_name := some "WS",
         bot_token := "bot", bot_user_id := some "B1", slack_user_id := some "SU1",
         user_token := some "utok", channel_id := "C123", channel_name := some "general",
         status := SlackStatus.ACTIVE, deleted_at := none }]
      "u1" (some "W1")
      (.ok [{ id := some "C123", name := some "general", name_normalized := none,
              is_private := some false, creator := some "SU1" }])
      (.ok [{ id := some "C123", name := some "general", name_normalized := none,
              is_private := some false, creator := none }])).channels =
      [{ id := "C123", name := "general", is_private := false }] ∧
    (([{ id := 1, user_id := "u1", workspace_id := "W1", workspace_name := some "WS",
         bot_token := "bot", bot_user_id := some "B1", slack_user_id := some "SU1",
         user_token := some "utok", channel_id := "SU1", channel_name := none,
         status := SlackStatus.ACTIVE, deleted_at := none },
       { id := 2, user_id := "u1", workspace_id := "W1", workspace_name := some "WS",
         bot_token := "bot", bot_user_id := some "B1", slack_user_id := some "SU1",
         user_token := some "utok", channel_id := "C123", channel_name := some "general",
         status := SlackStatus.ACTIVE, deleted_at := none }] : List SlackRow).filter
      (fun r => r.user_id == "u1" && r.workspace_id == "W1" && r.channel_id == "C123" &&
        r.deleted_at.isNone)).length = 1 := by
  constructor
  · decide
  · decide

/-- C6 (amended): the Discord endpoint as deployed always fails with a 500
before producing any list (its first store call names a method the Discord
service does not define); the guild-assembly logic it contains would
exclude every already-integrated (guild id, channel id) pair of the user;
and the Slack discovery endpoint performs no such exclusion — its result is
unchanged by adding a channel-integration row, because it only consults the
DM row for credentials. -/
theorem c6_discovery_exclusion_amended :
    (∀ (db : List DiscordRow) (uid : String) (bg : List DiscordApiGuild)
        (chOf : String → Except Unit (List DiscordApiChannel)),
      discord_get_available_guilds db uid bg chOf = DiscordGuildsResult.serverError) ∧
    (∀ (dm : DiscordRow) (db : List DiscordRow) (uid : String)
        (bg : List DiscordApiGuild)
        (chOf : String → Except Unit (List DiscordApiChannel))
        (g : AvailDiscordGuild) (ch : AvailDiscordChannel),
      g ∈ (discord_available_guilds_core dm db uid bg chOf).guilds →
      ch ∈ g.channels →
      (g.id, ch.id) ∉ discord_integrated_pairs db uid) ∧
    (∀ (db : List SlackRow) (uid : String) (ws : Option String)
        (uCh bCh : Except Unit (List SlackApiChannel)) (extra : SlackRow),
      some extra.channel_id ≠ extra.slack_user_id →
      slack_get_available_channels (db ++ [extra]) uid ws uCh bCh =
        slack_get_available_channels db uid ws uCh bCh) := by
  refine ⟨?_, ?_, ?_⟩
  · intro db uid bg chOf
    rfl
  · intro dm db uid bg chOf g ch hg hch
    unfold discord_available_guilds_core at hg
    by_cases h1 : (!pyTruthyStr dm.owned_guild_ids) = true
    · rw [if_pos h1] at hg
      simp [DiscordGuildsResult.guilds] at hg
    · rw [if_neg h1] at hg
      dsimp only at hg
      by_cases h2 : ((((pySplitChar ',' (dm.owned_guild_ids.getD "").data).map
          (fun l => String.mk l))).eraseDups).isEmpty = true
      · rw [if_pos h2] at hg
        simp [DiscordGuildsResult.guilds] at hg
      · rw [if_neg h2] at hg
        set avGuilds := ((((pySplitChar ',' (dm.owned_guild_ids.getD "").data).map
            (fun l => String.mk l))).eraseDups.filter
            (fun gid => bg.any (fun gg => gg.id == some gid))).filterMap (fun gid =>
          match (bg.filter (fun gg => gg.id == some gid)).getLast? with
          | none => none
          | some guild =>
            match chOf gid with
            | .error _ => none
            | .ok channels =>
              let available_channels := channels.filterMap (fun ch0 =>
                if !(ch0.chtype == some 0 || ch0.chtype == some 5) then none
                else if (match ch0.id with
                         | some c => (discord_integrated_pairs db uid).contains (gid, c)
                         | none => false) then none
                else if pyTruthyStr ch0.id && pyTruthyStr ch0.name then
                  some ({ id := ch0.id.getD "", name := ch0.name.getD "",
                          kind := if ch0.chtype == some 0 then "text" else "announcement" } :
                    AvailDiscordChannel)
                else none)
              if available_channels.isEmpty then none
              else some ({ id := gid, name := guild.name, icon := guild.icon,
                           channels := available_channels } : AvailDiscordGuild)) with havg
        by_cases h3 : avGuilds.isEmpty = true
        · rw [if_pos h3] at hg
          simp [DiscordGuildsResult.guilds] at hg
        · rw [if_neg h3] at hg
          simp only [DiscordGuildsResult.guilds] at hg
          rw [havg] at hg
          rcases List.mem_filterMap.mp hg with ⟨gid, hgid, hf⟩
          cases hlast : (bg.filter (fun gg => gg.id == some gid)).getLast? with
          | none => rw [hlast] at hf; simp at hf
          | some guild =>
            rw [hlast] at hf
            cases hchan : chOf gid with
            | error e => rw [hchan] at hf; simp at hf
            | ok channels =>
              rw [hchan] at hf
              dsimp only at hf
              by_cases hae : (channels.filterMap (fun ch0 =>
                  if !(ch0.chtype == some 0 || ch0.chtype == some 5) then none
                  else if (match ch0.id with
                           | some c => (discord_integrated_pairs db uid).contains (gid, c)
                           | none => false) then none
                  else if pyTruthyStr ch0.id && pyTruthyStr ch0.name then
                    some ({ id := ch0.id.getD "", name := ch0.name.getD "",
                            kind := if ch0.chtype == some 0 then "text" else "announcement" } :
                      AvailDiscordChannel)
                  else none)).isEmpty = true
              · rw [if_pos hae] at hf
                simp at hf
              · rw [if_neg hae] at hf
                have hgeq := Option.some.inj hf
                subst hgeq
                dsimp only at hch ⊢
                rcases List.mem_filterMap.mp hch with ⟨ch0, hch0, hcf⟩
                by_cases ht : (!(ch0.chtype == some 0 || ch0.chtype == some 5)) = true
                · rw [if_pos ht] at hcf; simp at hcf
                · rw [if_neg ht] at hcf
                  by_cases hskip : (match ch0.id with
                      | some c => (discord_integrated_pairs db uid).contains (gid, c)
                      | none => false) = true
                  · rw [if_pos hskip] at hcf; simp at hcf
                  · rw [if_neg hskip] at hcf
                    by_cases htr : (pyTruthyStr ch0.id && pyTruthyStr ch0.name) = true
                    · rw [if_pos htr] at hcf
                      have hcheq := Option.some.inj hcf
                      subst hcheq
                      dsimp only
                      cases hid0 : ch0.id with
                      | none =>
                        have : pyTruthyStr ch0.id = true := by
                          have := htr
                          simp only [Bool.and_eq_true] at this
                          exact this.1
                        rw [hid0] at this
                        simp [pyTruthyStr] at this
                      | some s =>
                        simp only [Option.getD_some]
                        rw [hid0] at hskip
                        intro hmem
                        exact hskip (List.elem_eq_true_of_mem hmem)
                    · rw [if_neg htr] at hcf
                      simp at hcf
  · intro db uid ws uCh bCh extra h
    unfold slack_get_available_channels
    rw [slack_get_dm_append_non_dm db uid ws extra h]

/-- Closed witness for C6 (amended): the Discord endpoint 500s on a concrete
input, and appending a concrete non-DM channel row leaves the Slack
discovery result unchanged. -/
theorem c6_discovery_exclusion_witness :
    discord_get_available_guilds [] "u" [] (fun _ => Except.ok []) =
      DiscordGuildsResult.serverError ∧
    (some "C9" ≠ (some "SU1" : Option String)) ∧
    slack_get_available_channels
      ([] ++ [{ id := 7, user_id := "u1", workspace_id := "W1", workspace_name := none,
                bot_token := "b", bot_user_id := none, slack_user_id := some "SU1",
                user_token := none, channel_id := "C9", channel_name := some "nine",
                status := SlackStatus.ACTIVE, deleted_at := none }]) "u1" none
      (.ok []) (.ok []) =
      slack_get_available_channels [] "u1" none (.ok []) (.ok []) :=
  ⟨c6_discovery_exclusion_amended.1 [] "u" [] (fun _ => Except.ok []),
   by decide,
   c6_discovery_exclusion_amended.2.2 [] "u1" none (.ok []) (.ok [])
     { id := 7, user_id := "u1", workspace_id := "W1", workspace_name := none,
       bot_token := "b", bot_user_id := none, slack_user_id := some "SU1",
       user_token := none, channel_id := "C9", channel_name := some "nine",
       status := SlackStatus.ACTIVE, deleted_at := none } (by decide)⟩
